import Mathlib

/-!
Verification of the Vessel Data Reconciliation Engine
(`vessel_merge.py`, `vessel_enhancement.py`, with the IMO validator from
`vessel_validation.py` and the vessel object model from `vessel_schema.py`).

The embedding models Python values occurring in the engine as the inductive
type `Value` (None, bool, numbers as exact rationals, strings, string-valued
enum members, lists), Python dicts as insertion-ordered association lists,
and the engine's fallible paths (statements that can raise `TypeError`,
`ZeroDivisionError`, `ValueError`) as `Except String`-valued computations,
with the `try/except` wrappers of the two public merge entry points mapped
to a catch that produces the failure `MergeResult`.
-/

/-- A Python number (`int`/`float` collapsed), represented as an exact,
possibly unreduced fraction with a positive denominator. Equality and order
are by cross-multiplication, so the representation never needs a gcd. -/
structure PyRat where
  num : Int
  den : Nat
deriving DecidableEq

instance (n : ℕ) : OfNat PyRat n := ⟨⟨(n : Int), 1⟩⟩

/-- Python `==` on numbers. -/
def PyRat.beq (a b : PyRat) : Bool := a.num * (b.den : Int) == b.num * (a.den : Int)

/-- Python `<=` on numbers. -/
def PyRat.ble (a b : PyRat) : Bool :=
  decide (a.num * (b.den : Int) ≤ b.num * (a.den : Int))

/-- Python `<` on numbers. -/
def PyRat.blt (a b : PyRat) : Bool :=
  decide (a.num * (b.den : Int) < b.num * (a.den : Int))

/-- Python `+`. -/
def PyRat.add (a b : PyRat) : PyRat :=
  ⟨a.num * b.den + b.num * a.den, a.den * b.den⟩

/-- Python `-`. -/
def PyRat.sub (a b : PyRat) : PyRat :=
  ⟨a.num * b.den - b.num * a.den, a.den * b.den⟩

/-- Python `abs`. -/
def PyRat.pabs (a : PyRat) : PyRat := ⟨|a.num|, a.den⟩

/-- Python `/` (callers guard against a zero divisor). -/
def PyRat.div (a b : PyRat) : PyRat :=
  if 0 ≤ b.num then ⟨a.num * b.den, a.den * b.num.toNat⟩
  else ⟨-(a.num * b.den), a.den * (-b.num).toNat⟩

/-- Python `min(a, b)`: `a` if `a <= b` else `b`. -/
def PyRat.pymin (a b : PyRat) : PyRat := if a.ble b then a else b

/-- Python `max(a, b)`: `a` if `a >= b` else `b`. -/
def PyRat.pymax (a b : PyRat) : PyRat := if b.ble a then a else b

/-- A Python value as it occurs in the engine: `None`, `bool`, a number,
`str`, a string-valued `Enum` member (carrying its `.value`), or a `list`. -/
inductive Value where
  | vnone : Value
  | vbool (b : Bool) : Value
  | vnum (q : PyRat) : Value
  | vstr (s : String) : Value
  | venum (tag : String) : Value
  | vlist (xs : List Value) : Value

mutual

/-- Python `==` on `Value`s: numbers (including `bool`, a subtype of `int`)
compare numerically, strings and same-class enum members by content, lists
pointwise; cross-type comparisons are `False`. -/
def pyEq : Value → Value → Bool
  | .vnone, .vnone => true
  | .vbool a, .vbool b => a == b
  | .vbool a, .vnum b => PyRat.beq (if a then 1 else 0) b
  | .vnum a, .vbool b => PyRat.beq a (if b then 1 else 0)
  | .vnum a, .vnum b => PyRat.beq a b
  | .vstr a, .vstr b => a == b
  | .venum a, .venum b => a == b
  | .vlist a, .vlist b => pyEqList a b
  | _, _ => false

/-- Pointwise Python `==` on lists. -/
def pyEqList : List Value → List Value → Bool
  | [], [] => true
  | x :: xs, y :: ys => pyEq x y && pyEqList xs ys
  | _, _ => false

end

/-- Python truthiness of a `Value`. -/
def pyTruthy : Value → Bool
  | .vnone => false
  | .vbool b => b
  | .vnum q => !q.beq 0
  | .vstr s => s != ""
  | .venum _ => true
  | .vlist xs => !xs.isEmpty

/-- `isinstance(v, (int, float))` together with the numeric content;
Python `bool` is a subclass of `int` so `True`/`False` count as `1`/`0`. -/
def pyNumVal? : Value → Option PyRat
  | .vbool b => some (if b then 1 else 0)
  | .vnum q => some q
  | _ => none

/-- `v is None`. -/
def isNoneV : Value → Bool
  | .vnone => true
  | _ => false

/-- Python `>` between two engine values. Numbers (including bools) and
strings compare; any other combination raises `TypeError` (the modelled
domain; the engine only ever compares these shapes). -/
def pyGt (a b : Value) : Except String Bool :=
  match pyNumVal? a, pyNumVal? b with
  | some x, some y => .ok (y.blt x)
  | _, _ =>
      match a, b with
      | .vstr x, .vstr y => .ok (decide (y < x))
      | _, _ => .error "TypeError: unorderable types"

/-- `str(v)` as used in f-string warnings and descriptions. Numeric
formatting abstracts Python's `repr` (no claim depends on its exact text). -/
def pyStrOfValue : Value → String
  | .vnone => "None"
  | .vbool b => if b then "True" else "False"
  | .vnum q => if q.den == 1 then toString q.num
               else toString q.num ++ "/" ++ toString q.den
  | .vstr s => s
  | .venum t => t
  | .vlist _ => "[...]"

/-- Python `str.lower()` (per-character, as the engine's ASCII field values
need). -/
def pyLower (s : String) : String := ⟨s.data.map Char.toLower⟩

/-- Python `str.strip()`: drop leading and trailing whitespace. -/
def pyStrip (s : String) : String :=
  ⟨((s.data.dropWhile Char.isWhitespace).reverse.dropWhile Char.isWhitespace).reverse⟩

/-- Code-point comparison of character lists (Python string `<=`). -/
def charListLe : List Char → List Char → Bool
  | [], _ => true
  | _ :: _, [] => false
  | a :: as, b :: bs =>
      if a.toNat < b.toNat then true
      else if b.toNat < a.toNat then false
      else charListLe as bs

/-- Python string `<=` (code-point lexicographic). -/
def strLe (a b : String) : Bool := charListLe a.data b.data

/-- `s.startswith('_')`. -/
def startsWithUnderscore (s : String) : Bool := s.data.head? == some '_'

/-- A Python `dict` keyed by field name, as an insertion-ordered
association list (Python dicts have unique keys). -/
abbrev Dict := List (String × Value)

/-- `d.get(k)` / `d[k]`: first binding of `k`, if any. -/
def dget : Dict → String → Option Value
  | [], _ => none
  | (k', v) :: d, k => if k' = k then some v else dget d k

/-- `d[k] = v`: replace the binding in place, else append. -/
def dset : Dict → String → Value → Dict
  | [], k, v => [(k, v)]
  | (k', v') :: d, k, v => if k' = k then (k, v) :: d else (k', v') :: dset d k v

/-- `k in d`. -/
def dmem (d : Dict) (k : String) : Bool := (dget d k).isSome

/-- The keys of a dict, in order. -/
def dkeys (d : Dict) : List String := d.map Prod.fst

/-! ## `vessel_merge.py`: enums, tables, comparator -/

/-- `MergeStrategy` (vessel_merge.py): strategies for handling merge
conflicts. -/
inductive MergeStrategy where
  | prefer_existing | prefer_new | prefer_newer
  | prefer_reliable | prefer_complete | manual
deriving DecidableEq

/-- The `.value` string of a `MergeStrategy` member. -/
def MergeStrategy.toValue : MergeStrategy → String
  | .prefer_existing => "prefer_existing"
  | .prefer_new => "prefer_new"
  | .prefer_newer => "prefer_newer"
  | .prefer_reliable => "prefer_reliable"
  | .prefer_complete => "prefer_complete"
  | .manual => "manual"

/-- The `MergeStrategy(s)` enum constructor; `none` models the `ValueError`
raised on an unknown string. -/
def mergeStrategyOfString : String → Option MergeStrategy
  | "prefer_existing" => some .prefer_existing
  | "prefer_new" => some .prefer_new
  | "prefer_newer" => some .prefer_newer
  | "prefer_reliable" => some .prefer_reliable
  | "prefer_complete" => some .prefer_complete
  | "manual" => some .manual
  | _ => none

/-- `DataReliability` (vessel_merge.py): source reliability levels. -/
inductive DataReliability where
  | very_high | high | medium | low | very_low
deriving DecidableEq, Fintype

/-- The numeric `.value` of a `DataReliability` member. -/
def DataReliability.val : DataReliability → ℕ
  | .very_high => 5
  | .high => 4
  | .medium => 3
  | .low => 2
  | .very_low => 1

/-- `VesselDataMerger.source_reliability`: source reliability mapping. -/
def source_reliability : List (String × DataReliability) :=
  [("marinetraffic", .high),
   ("boat_international", .medium),
   ("wordpress", .low),
   ("user_input", .low),
   ("manual_entry", .low),
   ("imo_registry", .very_high),
   ("lloyds", .high),
   ("classification_society", .high),
   ("database", .medium)]

/-- `self.source_reliability.get(source, DataReliability.LOW)`. -/
def sourceReliabilityOf (source : String) : DataReliability :=
  ((source_reliability.find? (fun p => p.1 == source)).map Prod.snd).getD .low

/-- `VesselDataMerger.field_merge_strategies`: field-specific merge
strategies. -/
def field_merge_strategies : List (String × MergeStrategy) :=
  [("imo_number", .prefer_existing),
   ("mmsi_number", .prefer_existing),
   ("official_number", .prefer_existing),
   ("vessel_name", .prefer_reliable),
   ("call_sign", .prefer_reliable),
   ("flag_state", .prefer_reliable),
   ("length_overall", .prefer_reliable),
   ("beam", .prefer_reliable),
   ("draft", .prefer_reliable),
   ("gross_tonnage", .prefer_reliable),
   ("year_built", .prefer_reliable),
   ("description", .prefer_complete),
   ("builder", .prefer_complete),
   ("build_location", .prefer_complete),
   ("last_port", .prefer_newer),
   ("destination", .prefer_newer),
   ("eta", .prefer_newer),
   ("guest_capacity", .prefer_complete),
   ("crew_capacity", .prefer_complete),
   ("max_speed", .prefer_complete),
   ("cruise_speed", .prefer_complete),
   ("range_nm", .prefer_complete),
   ("classification_society", .manual),
   ("class_notation", .manual)]

/-- `self.field_merge_strategies.get(field_name, MergeStrategy.PREFER_RELIABLE)`. -/
def fieldMergeStrategyOf (field_name : String) : MergeStrategy :=
  ((field_merge_strategies.find? (fun p => p.1 == field_name)).map Prod.snd).getD
    .prefer_reliable

/-- `VesselDataMerger.field_types`: field type mapping for the vessel
schema. -/
def field_types : List (String × String) :=
  [("length_overall", "numeric"), ("beam", "numeric"), ("draft", "numeric"),
   ("gross_tonnage", "numeric"), ("net_tonnage", "numeric"),
   ("deadweight", "numeric"), ("displacement", "numeric"),
   ("year_built", "numeric"), ("max_speed", "numeric"),
   ("cruise_speed", "numeric"), ("range_nm", "numeric"),
   ("guest_capacity", "numeric"), ("crew_capacity", "numeric"),
   ("guest_cabins", "numeric"), ("crew_cabins", "numeric"),
   ("engine_power", "numeric"), ("fuel_capacity", "numeric"),
   ("water_capacity", "numeric"),
   ("vessel_name", "string"), ("imo_number", "string"),
   ("mmsi_number", "string"), ("call_sign", "string"),
   ("official_number", "string"), ("flag_state", "string"),
   ("port_of_registry", "string"), ("builder", "string"),
   ("build_location", "string"), ("hull_number", "string"),
   ("main_engines", "string"), ("class_notation", "string"),
   ("home_port", "string"), ("radio_certificate", "string"),
   ("default_operator_name", "string"),
   ("description", "text"), ("notes", "text"),
   ("vessel_type", "enum"), ("hull_material", "enum"),
   ("propulsion_type", "enum"), ("classification_society", "enum"),
   ("yacht_category", "enum"), ("design_category", "enum"),
   ("superyacht_status", "boolean"), ("commercial_operation", "boolean"),
   ("is_active", "boolean"),
   ("survey_date", "date"), ("certificate_expiry", "date"),
   ("created_date", "date"), ("updated_date", "date"),
   ("images", "list"), ("certificates", "list"),
   ("build_standards", "list"), ("cruising_areas", "list")]

/-- `VesselDataMerger._get_field_type`: `self.field_types.get(field_name, 'string')`. -/
def _get_field_type (field_name : String) : String :=
  ((field_types.find? (fun p => p.1 == field_name)).map Prod.snd).getD "string"

/-- `VesselDataMerger._values_equal`: equality with type tolerance
(numeric values within `0.01`, trimmed case-folded strings, enum `.value`
comparisons, Python `==` otherwise). -/
def _values_equal (val1 val2 : Value) : Bool :=
  match val1, val2 with
  | .vnone, .vnone => true
  | .vnone, _ => false
  | _, .vnone => false
  | v1, v2 =>
      match pyNumVal? v1, pyNumVal? v2 with
      | some a, some b => PyRat.blt (a.sub b).pabs ⟨1, 100⟩
      | _, _ =>
          match v1, v2 with
          | .vstr a, .vstr b => pyLower (pyStrip a) == pyLower (pyStrip b)
          | .venum a, .venum b => a == b
          | .venum a, w => pyEq (.vstr a) w
          | w, .venum b => pyEq w (.vstr b)
          | _, _ => pyEq v1 v2

/-- `VesselDataMerger._is_more_complete`: is `val1` more complete than
`val2` (longer trimmed string, non-zero over zero number, longer list)? -/
def _is_more_complete (val1 val2 : Value) : Bool :=
  match val1, val2 with
  | .vnone, _ => false
  | _, .vnone => true
  | .vstr a, .vstr b => decide ((pyStrip b).length < (pyStrip a).length)
  | v1, v2 =>
      match pyNumVal? v1, pyNumVal? v2 with
      | some a, some b => !a.beq 0 && b.beq 0
      | _, _ =>
          match v1, v2 with
          | .vlist a, .vlist b => decide (b.length < a.length)
          | _, _ => false

/-! ## `vessel_merge.py`: conflicts and resolution -/

/-- `MergeConflict` (vessel_merge.py): a merge conflict between two data
values; `suggested_resolution` is stored as a string for UI compatibility. -/
structure MergeConflict where
  field_name : String
  existing_value : Value
  new_value : Value
  existing_source : String
  new_source : String
  existing_reliability : DataReliability
  new_reliability : DataReliability
  field_type : String
  suggested_resolution : String
  confidence : PyRat

/-- `MergeResult` (vessel_merge.py): result of a merge operation. -/
structure MergeResult where
  success : Bool
  merged_data : Dict
  conflicts : List MergeConflict
  auto_resolved : List String
  manual_required : List String
  warnings : List String
  error_message : Option String

/-- The confidence computed by `_create_conflict`:
`min(0.9, max(0.1, (5 - |Δreliability|)/5))`. -/
def conflictConfidence (existing_reliability new_reliability : DataReliability) : PyRat :=
  let reliability_diff : PyRat :=
    (PyRat.sub ⟨(existing_reliability.val : Int), 1⟩
      ⟨(new_reliability.val : Int), 1⟩).pabs
  PyRat.pymin ⟨9, 10⟩ (PyRat.pymax ⟨1, 10⟩ ((PyRat.sub 5 reliability_diff).div 5))

/-- `VesselDataMerger._create_conflict`: build a `MergeConflict`, looking
up reliabilities (`LOW` default), the field strategy (`PREFER_RELIABLE`
default) and computing the confidence from the reliability difference. -/
def _create_conflict (field_name : String) (existing_value new_value : Value)
    (existing_source new_source : String) : MergeConflict :=
  let existing_reliability := sourceReliabilityOf existing_source
  let new_reliability := sourceReliabilityOf new_source
  let strategy := fieldMergeStrategyOf field_name
  { field_name := field_name
    existing_value := existing_value
    new_value := new_value
    existing_source := existing_source
    new_source := new_source
    existing_reliability := existing_reliability
    new_reliability := new_reliability
    field_type := _get_field_type field_name
    suggested_resolution := strategy.toValue
    confidence := conflictConfidence existing_reliability new_reliability }

/-- `VesselDataMerger._resolve_conflict`: automatically resolve a conflict
based on its strategy; `.ok none` means manual resolution is required, and
`.error` models the `ValueError` the `MergeStrategy(...)` constructor raises
on an unknown strategy string. -/
def _resolve_conflict (conflict : MergeConflict) : Except String (Option Value) :=
  match mergeStrategyOfString conflict.suggested_resolution with
  | none => .error "ValueError: invalid MergeStrategy"
  | some .prefer_existing => .ok (some conflict.existing_value)
  | some .prefer_new => .ok (some conflict.new_value)
  | some .prefer_reliable =>
      .ok (some (if conflict.existing_reliability.val < conflict.new_reliability.val
                 then conflict.new_value else conflict.existing_value))
  | some .prefer_complete =>
      .ok (some (if _is_more_complete conflict.new_value conflict.existing_value
                 then conflict.new_value else conflict.existing_value))
  | some .prefer_newer => .ok (some conflict.new_value)
  | some .manual => .ok none

/-! ## `vessel_validation.py`: the IMO validator used by the merger -/

/-- Numeric value of a digit character. -/
def charDigit (c : Char) : ℕ := c.toNat - 48

/-- `VesselValidator._validate_imo_check_digit`: weighted sum of the first
six digits with `self.imo_weights = [7, 1, 3, 1, 7, 1, 3]`, modulo 10,
against the seventh digit; any `ValueError`/`IndexError` yields `False`. -/
def _validate_imo_check_digit (ds : List Char) : Bool :=
  match ds with
  | [a, b, c, d, e, f, g] =>
      (charDigit a * 7 + charDigit b * 1 + charDigit c * 3 + charDigit d * 1 +
       charDigit e * 7 + charDigit f * 1) % 10 == charDigit g
  | _ => false

/-- `VesselValidator.validate_imo_number`: strip non-digits, require exactly
7 digits, then the check digit. A non-string truthy argument makes
`re.sub` raise `TypeError` (propagated to the merge wrapper). -/
def validate_imo_number (imo_number : Value) : Except String (Bool × String) :=
  if pyTruthy imo_number = false then .ok (true, "")
  else
    match imo_number with
    | .vstr s =>
        let imo_clean := s.data.filter Char.isDigit
        if imo_clean.length ≠ 7 then
          .ok (false, "IMO number must be exactly 7 digits")
        else if _validate_imo_check_digit imo_clean then .ok (true, "")
        else .ok (false, "Invalid IMO number - check digit verification failed")
    | _ => .error "TypeError: expected string or bytes-like object"

/-! ## `vessel_merge.py`: validation of merged data -/

/-- The beam/length warning text from `_validate_merged_data`. -/
def beamWarning : String := "Beam is greater than length overall - please verify"

/-- The max-speed warning text from `_validate_merged_data`. -/
def speedWarning (s : String) : String :=
  "Maximum speed (" ++ s ++ " knots) seems very high"

/-- The IMO-validation warning text from `_validate_merged_data`. -/
def imoWarning (e : String) : String := "IMO number validation failed: " ++ e

/-- The beam-vs-length check of `_validate_merged_data`: when both fields
are present and truthy, compare them (a Python `TypeError` propagates). -/
def validateBeamBlock (merged_data : Dict) : Except String (List String) :=
  if dmem merged_data "length_overall" && dmem merged_data "beam" then
    if pyTruthy ((dget merged_data "length_overall").getD .vnone)
        && pyTruthy ((dget merged_data "beam").getD .vnone) then
      pyGt ((dget merged_data "beam").getD .vnone)
          ((dget merged_data "length_overall").getD .vnone) >>= fun b =>
        .ok (if b then [beamWarning] else [])
    else .ok []
  else .ok []

/-- The unrealistic-max-speed check of `_validate_merged_data`. -/
def validateSpeedBlock (merged_data : Dict) : Except String (List String) :=
  if dmem merged_data "max_speed" then
    if pyTruthy ((dget merged_data "max_speed").getD .vnone) then
      pyGt ((dget merged_data "max_speed").getD .vnone) (.vnum 70) >>= fun b =>
        .ok (if b then
          [speedWarning (pyStrOfValue ((dget merged_data "max_speed").getD .vnone))]
          else [])
    else .ok []
  else .ok []

/-- The IMO-validity check of `_validate_merged_data`. -/
def validateImoBlock (merged_data : Dict) : Except String (List String) :=
  if dmem merged_data "imo_number" then
    if pyTruthy ((dget merged_data "imo_number").getD .vnone) then
      validate_imo_number ((dget merged_data "imo_number").getD .vnone) >>= fun r =>
        .ok (if r.1 then [] else [imoWarning r.2])
    else .ok []
  else .ok []

/-- `VesselDataMerger._validate_merged_data`: check beam vs length overall,
an unrealistic max speed, and IMO validity, in that order; Python
comparisons between incompatible merged values raise `TypeError`, which the
merge wrapper catches. -/
def _validate_merged_data (merged_data : Dict) : Except String (List String) :=
  validateBeamBlock merged_data >>= fun w1 =>
    validateSpeedBlock merged_data >>= fun w2 =>
      validateImoBlock merged_data >>= fun w3 =>
        .ok (w1 ++ w2 ++ w3)

/-! ## `vessel_schema.py`: the vessel object model

A vessel object is its class (`BaseVessel` or the `YachtSchema` subclass)
together with its instance attribute dict, exactly the attributes assigned
in the corresponding `__init__`. -/

/-- The two vessel classes the merger instantiates. -/
inductive VClass where
  | base | yacht
deriving DecidableEq

/-- The instance attributes set by `BaseVessel.__init__`, with their
defaults: every field is `None` except `build_standards = []`. -/
def baseVesselDefaults : Dict :=
  [("vessel_name", .vnone), ("imo_number", .vnone), ("mmsi_number", .vnone),
   ("call_sign", .vnone), ("official_number", .vnone),
   ("vessel_type", .vnone), ("flag_state", .vnone),
   ("port_of_registry", .vnone), ("classification_society", .vnone),
   ("class_notation", .vnone),
   ("length_overall", .vnone), ("length_waterline", .vnone),
   ("beam", .vnone), ("draft", .vnone), ("depth", .vnone),
   ("air_draft", .vnone), ("gross_tonnage", .vnone),
   ("net_tonnage", .vnone), ("deadweight", .vnone),
   ("displacement", .vnone),
   ("year_built", .vnone), ("builder", .vnone), ("build_location", .vnone),
   ("hull_material", .vnone), ("hull_number", .vnone),
   ("design_category", .vnone),
   ("build_standards", .vlist []), ("survey_date", .vnone),
   ("certificate_expiry", .vnone),
   ("default_operator_name", .vnone), ("radio_certificate", .vnone),
   ("manufacturer", .vnone), ("model", .vnone),
   ("vehicle_identification_number", .vnone),
   ("created_date", .vnone), ("updated_date", .vnone),
   ("data_source", .vnone)]

/-- The additional instance attributes set by `YachtSchema.__init__` after
`super().__init__()`: `None` defaults, `False` for the boolean flags, `[]`
for the list fields. -/
def yachtExtraDefaults : Dict :=
  [("yacht_category", .vnone),
   ("superyacht_status", .vbool false), ("commercial_operation", .vbool false),
   ("length_deck", .vnone), ("beam_waterline", .vnone),
   ("freeboard", .vnone), ("bridge_clearance", .vnone),
   ("guest_cabins", .vnone), ("crew_cabins", .vnone),
   ("total_berths", .vnone), ("guest_capacity", .vnone),
   ("crew_capacity", .vnone), ("number_of_heads", .vnone),
   ("max_speed", .vnone), ("cruise_speed", .vnone), ("range", .vnone),
   ("fuel_capacity", .vnone), ("water_capacity", .vnone),
   ("propulsion_type", .vnone), ("main_engines", .vnone),
   ("engine_power", .vnone), ("number_of_engines", .vnone),
   ("propeller_type", .vnone),
   ("bow_thruster", .vbool false), ("stern_thruster", .vbool false),
   ("sail_area", .vnone), ("mast_height", .vnone), ("keel_type", .vnone),
   ("ballast_weight", .vnone),
   ("helicopter_pad", .vbool false), ("swimming_pool", .vbool false),
   ("beach_club", .vbool false), ("gym", .vbool false),
   ("spa", .vbool false), ("wine_cellar", .vbool false),
   ("elevator", .vbool false), ("air_conditioning", .vbool false),
   ("stabilizers", .vbool false),
   ("satellite_communication", .vbool false), ("wifi_coverage", .vnone),
   ("entertainment_systems", .vnone), ("navigation_equipment", .vnone),
   ("charter_license", .vnone), ("charter_rate_high", .vnone),
   ("charter_rate_low", .vnone), ("charter_currency", .vnone),
   ("management_company", .vnone),
   ("owner_name", .vnone), ("brokerage_firm", .vnone),
   ("asking_price", .vnone), ("price_currency", .vnone),
   ("for_sale", .vbool false), ("for_charter", .vbool false),
   ("awards", .vlist []), ("design_awards", .vlist []),
   ("environmental_certification", .vnone),
   ("green_technologies", .vlist []),
   ("interior_designer", .vnone), ("exterior_designer", .vnone),
   ("naval_architect", .vnone), ("interior_style", .vnone),
   ("home_port", .vnone), ("cruising_areas", .vlist []),
   ("winter_location", .vnone), ("summer_location", .vnone)]

/-- `YachtSchema.__init__`: base defaults followed by the yacht-specific
attributes. -/
def yachtSchemaDefaults : Dict := baseVesselDefaults ++ yachtExtraDefaults

/-- A vessel object: its class and its instance attribute dict. -/
structure Vessel where
  cls : VClass
  attrs : Dict

/-- A freshly constructed `BaseVessel()` updated with the given attribute
assignments (construction helper for concrete records). -/
def mkBaseVessel (sets : Dict) : Vessel :=
  ⟨.base, sets.foldl (fun a kv => dset a kv.1 kv.2) baseVesselDefaults⟩

/-- A freshly constructed `YachtSchema()` updated with the given attribute
assignments (construction helper for concrete records). -/
def mkYachtVessel (sets : Dict) : Vessel :=
  ⟨.yacht, sets.foldl (fun a kv => dset a kv.1 kv.2) yachtSchemaDefaults⟩

/-- Insert an attribute into a name-sorted attribute list (ascending by
code point, the order `dir()` yields). -/
def insertAttr (p : String × Value) : Dict → Dict
  | [] => [p]
  | q :: qs => if strLe p.1 q.1 then p :: q :: qs else q :: insertAttr p qs

/-- Sort an attribute list by name, modelling `dir(vessel)`'s alphabetical
iteration order. -/
def sortAttrs : Dict → Dict
  | [] => []
  | p :: ps => insertAttr p (sortAttrs ps)

/-- `VesselDataMerger._vessel_to_dict`: walk the object's attributes in
`dir()` order, skip private names and `None` values, unwrap enum members to
their `.value` (methods, the only callables, carry no data here). -/
def _vessel_to_dict (vessel : Vessel) : Dict :=
  (sortAttrs vessel.attrs).foldl
    (fun d kv =>
      if startsWithUnderscore kv.1 then d
      else
        match kv.2 with
        | .vnone => d
        | .venum tag => dset d kv.1 (.vstr tag)
        | v => dset d kv.1 v) []

/-- `VesselDataMerger._create_vessel_from_dict`: pick `YachtSchema` when
`data.get('vessel_type', 'yacht')` is one of the yacht subtypes, else
`BaseVessel`, then `setattr` every field the fresh object has
(`hasattr` = the field is among the class's instance attributes). -/
def _create_vessel_from_dict (data : Dict) : Vessel :=
  let vessel_type := (dget data "vessel_type").getD (.vstr "yacht")
  let isYacht := ["yacht", "motor_yacht", "sailing_yacht", "superyacht"].any
    (fun s => pyEq vessel_type (.vstr s))
  let init := if isYacht then yachtSchemaDefaults else baseVesselDefaults
  let attrs := data.foldl
    (fun a kv => if dmem a kv.1 then dset a kv.1 kv.2 else a) init
  ⟨if isYacht then .yacht else .base, attrs⟩

/-! ## `vessel_merge.py`: the merge orchestrator -/

/-- `new_value is None or new_value == ''` (the skip test for candidate
values). -/
def isSkippedNew (v : Value) : Bool := isNoneV v || pyEq v (.vstr "")

/-- `existing_value is None or existing_value == '' or existing_value == 0`
(the "no existing value" test; `.get` of a missing key is also `None`). -/
def isEmptyExisting (v : Value) : Bool :=
  isNoneV v || pyEq v (.vstr "") || pyEq v (.vnum 0)

/-- The accumulator of `merge_vessel_data`'s field loop. -/
structure MergeAcc where
  merged_data : Dict
  conflicts : List MergeConflict
  auto_resolved : List String
  manual_required : List String

/-- The empty accumulator the field loop starts from. -/
def initMergeAcc : MergeAcc := ⟨[], [], [], []⟩

/-- One iteration of `merge_vessel_data`'s `for field_name, new_value in
new_data.items()` loop. -/
def processField (existing_data : Dict) (existing_source new_source : String)
    (auto_resolve : Bool) (acc : MergeAcc) (kv : String × Value) :
    Except String MergeAcc :=
  let field_name := kv.1
  let new_value := kv.2
  if isSkippedNew new_value then .ok acc
  else
    let existing_value := (dget existing_data field_name).getD .vnone
    if isEmptyExisting existing_value then
      .ok { acc with merged_data := dset acc.merged_data field_name new_value }
    else if _values_equal existing_value new_value then
      .ok { acc with merged_data := dset acc.merged_data field_name existing_value }
    else
      let conflict :=
        _create_conflict field_name existing_value new_value existing_source new_source
      let acc1 := { acc with conflicts := acc.conflicts ++ [conflict] }
      if auto_resolve then
        match _resolve_conflict conflict with
        | .error e => .error e
        | .ok (some resolution) =>
            .ok { acc1 with
                  merged_data := dset acc1.merged_data field_name resolution
                  auto_resolved := acc1.auto_resolved ++ [field_name] }
        | .ok none =>
            .ok { acc1 with
                  merged_data := dset acc1.merged_data field_name existing_value
                  manual_required := acc1.manual_required ++ [field_name] }
      else
        .ok { acc1 with
              merged_data := dset acc1.merged_data field_name existing_value
              manual_required := acc1.manual_required ++ [field_name] }

/-- Step 2 of `merge_vessel_data`: copy any existing field absent from the
merged data (and not `None`) into it. -/
def copyRemainingExisting (merged : Dict) (existing_data : Dict) : Dict :=
  existing_data.foldl
    (fun m kv => if !dmem m kv.1 && !isNoneV kv.2 then dset m kv.1 kv.2 else m)
    merged

/-- The body of `merge_vessel_data`'s `try` block: field loop, copy of
remaining existing data, then validation. -/
def merge_vessel_data_core (existing_data new_data : Dict)
    (new_source existing_source : String) (auto_resolve : Bool) :
    Except String (Dict × List MergeConflict × List String × List String × List String) := do
  let acc ← new_data.foldlM
    (processField existing_data existing_source new_source auto_resolve) initMergeAcc
  let merged_data := copyRemainingExisting acc.merged_data existing_data
  let warnings ← _validate_merged_data merged_data
  pure (merged_data, acc.conflicts, acc.auto_resolved, acc.manual_required, warnings)

/-- `VesselDataMerger.merge_vessel_data`: merge new data into an existing
vessel; any exception in the body is caught and returned as a failure
result with empty collections. -/
def merge_vessel_data (existing_vessel : Vessel) (new_data : Dict)
    (new_source existing_source : String) (auto_resolve : Bool) : MergeResult :=
  match merge_vessel_data_core (_vessel_to_dict existing_vessel) new_data
      new_source existing_source auto_resolve with
  | .ok (m, cs, ar, mr, ws) =>
      { success := true, merged_data := m, conflicts := cs, auto_resolved := ar
        manual_required := mr, warnings := ws, error_message := none }
  | .error e =>
      { success := false, merged_data := [], conflicts := [], auto_resolved := []
        manual_required := [], warnings := [], error_message := some e }

/-- The sequential source loop of `merge_multiple_sources`, with the early
`return merge_result` on a failed pass. -/
def mergeSourcesLoop (auto_resolve : Bool) (current_data : Dict)
    (all_conflicts : List MergeConflict) (all_auto_resolved : List String)
    (all_manual_required : List String) (all_warnings : List String) :
    List (Dict × String) → MergeResult
  | [] =>
      { success := true, merged_data := current_data, conflicts := all_conflicts
        auto_resolved := all_auto_resolved, manual_required := all_manual_required
        warnings := all_warnings, error_message := none }
  | (new_data, source_name) :: rest =>
      let temp_vessel := _create_vessel_from_dict current_data
      let merge_result :=
        merge_vessel_data temp_vessel new_data source_name "database" auto_resolve
      if merge_result.success = false then merge_result
      else
        mergeSourcesLoop auto_resolve merge_result.merged_data
          (all_conflicts ++ merge_result.conflicts)
          (all_auto_resolved ++ merge_result.auto_resolved)
          (all_manual_required ++ merge_result.manual_required)
          (all_warnings ++ merge_result.warnings) rest

/-- `VesselDataMerger.merge_multiple_sources`: fold the candidate sources
over the vessel, each pass's merged dict reconstituted into a temporary
vessel for the next pass; per-pass conflicts, resolutions and warnings
accumulate in source order. -/
def merge_multiple_sources (existing_vessel : Vessel)
    (data_sources : List (Dict × String)) (auto_resolve : Bool) : MergeResult :=
  mergeSourcesLoop auto_resolve (_vessel_to_dict existing_vessel) [] [] [] []
    data_sources

/-! ## `vessel_enhancement.py`: opportunity detection and conflict confidence -/

/-- `EnhancementSource` (vessel_enhancement.py): available enhancement
sources. -/
inductive EnhancementSource where
  | marinetraffic | boat_international | wordpress
deriving DecidableEq

/-- `EnhancementOpportunity` (vessel_enhancement.py): an available
enhancement opportunity. -/
structure EnhancementOpportunity where
  source : EnhancementSource
  identifier_type : String
  identifier_value : Value
  confidence : PyRat
  description : String
  estimated_fields : ℕ

/-- `VesselEnhancementService.source_reliability`: the service's own source
reliability mapping (distinct from the merger's). -/
def enhancement_source_reliability : List (String × DataReliability) :=
  [("marinetraffic", .high),
   ("boat_international", .medium),
   ("wordpress", .low),
   ("database", .medium),
   ("user_input", .low)]

/-- `self.source_reliability.get(source, DataReliability.LOW)` in the
enhancement service. -/
def enhancementReliabilityOf (source : String) : DataReliability :=
  ((enhancement_source_reliability.find? (fun p => p.1 == source)).map
    Prod.snd).getD .low

/-- `VesselEnhancementService._calculate_conflict_confidence`: base
confidence `reliability(source)/5`, plus `0.2` when both values are numeric
and within 10% of each other, capped at `1.0`; two zero values make the
ratio computation raise `ZeroDivisionError`. -/
def _calculate_conflict_confidence (existing_value new_value : Value)
    (source : String) : Except String PyRat :=
  let base : PyRat := PyRat.div ⟨((enhancementReliabilityOf source).val : Int), 1⟩ 5
  match pyNumVal? existing_value, pyNumVal? new_value with
  | some a, some b =>
      if (a.pymax b).beq 0 then .error "ZeroDivisionError: division by zero"
      else
        let diff_ratio := ((a.sub b).pabs).div (a.pymax b)
        let boosted := if diff_ratio.blt ⟨1, 10⟩ then base.add ⟨1, 5⟩ else base
        .ok (boosted.pymin 1)
  | _, _ => .ok (base.pymin 1)

/-- `VesselEnhancementService._get_marinetraffic_opportunities`: an IMO
number yields a 0.95-confidence opportunity, an MMSI a 0.90 one. -/
def _get_marinetraffic_opportunities (vessel : Vessel) : List EnhancementOpportunity :=
  (if pyTruthy ((dget vessel.attrs "imo_number").getD .vnone) then
    [{ source := .marinetraffic, identifier_type := "imo"
       identifier_value := (dget vessel.attrs "imo_number").getD .vnone
       confidence := ⟨19, 20⟩
       description := "Enhance using IMO number "
         ++ pyStrOfValue ((dget vessel.attrs "imo_number").getD .vnone)
       estimated_fields := 8 }]
  else []) ++
  (if pyTruthy ((dget vessel.attrs "mmsi_number").getD .vnone) then
    [{ source := .marinetraffic, identifier_type := "mmsi"
       identifier_value := (dget vessel.attrs "mmsi_number").getD .vnone
       confidence := ⟨9, 10⟩
       description := "Enhance using MMSI number "
         ++ pyStrOfValue ((dget vessel.attrs "mmsi_number").getD .vnone)
       estimated_fields := 7 }]
  else [])

/-- `VesselEnhancementService._get_boat_international_opportunities`: a
vessel whose `vessel_type.value` is a yacht subtype and whose name is
non-empty yields a 0.70-confidence opportunity; `.value` on a truthy
non-enum `vessel_type` raises `AttributeError`. -/
def _get_boat_international_opportunities (vessel : Vessel) :
    Except String (List EnhancementOpportunity) :=
  if pyTruthy ((dget vessel.attrs "vessel_type").getD .vnone) then
    (match (dget vessel.attrs "vessel_type").getD .vnone with
      | .venum t => Except.ok t
      | _ =>
          Except.error "AttributeError: object has no attribute value")
      >>= fun tag =>
        if ["yacht", "motor_yacht", "sailing_yacht", "superyacht"].contains tag then
          if pyTruthy ((dget vessel.attrs "vessel_name").getD .vnone) then
            .ok [{ source := .boat_international, identifier_type := "name"
                   identifier_value := (dget vessel.attrs "vessel_name").getD .vnone
                   confidence := ⟨7, 10⟩
                   description := "Search BOAT International for yacht '"
                     ++ pyStrOfValue ((dget vessel.attrs "vessel_name").getD .vnone)
                     ++ "'"
                   estimated_fields := 6 }]
          else .ok []
        else .ok []
  else .ok []

/-- Insert an opportunity into a list sorted descending by confidence. -/
def insertOpp (x : EnhancementOpportunity) :
    List EnhancementOpportunity → List EnhancementOpportunity
  | [] => [x]
  | y :: ys => if x.confidence.ble y.confidence then y :: insertOpp x ys
               else x :: y :: ys

/-- `opportunities.sort(key=lambda x: x.confidence, reverse=True)`. -/
def sortOpps : List EnhancementOpportunity → List EnhancementOpportunity
  | [] => []
  | x :: xs => insertOpp x (sortOpps xs)

/-- `VesselEnhancementService.get_enhancement_opportunities`: `none` for the
vessel models a failed `get_vessel_by_id` lookup, `api_key` the configured
MarineTraffic key (checked for truthiness); an exception while collecting
BOAT International opportunities is caught, returning the list accumulated
so far (unsorted). -/
def get_enhancement_opportunities (vessel? : Option Vessel) (api_key : Value) :
    List EnhancementOpportunity :=
  match vessel? with
  | none => []
  | some vessel =>
      match _get_boat_international_opportunities vessel with
      | .error _ =>
          if pyTruthy api_key then _get_marinetraffic_opportunities vessel
          else []
      | .ok boat =>
          sortOpps
            ((if pyTruthy api_key then _get_marinetraffic_opportunities vessel
              else []) ++ boat)

/-! ## Dictionary lemmas -/

theorem dget_dset_self (d : Dict) (k : String) (v : Value) :
    dget (dset d k v) k = some v := by
  induction d with
  | nil => simp [dget, dset]
  | cons p d ih =>
      obtain ⟨k', v'⟩ := p
      by_cases h : k' = k
      · subst h; simp [dget, dset]
      · simp [dget, dset, h, ih]

theorem dget_dset_ne (d : Dict) (k k' : String) (v : Value) (h : k' ≠ k) :
    dget (dset d k' v) k = dget d k := by
  induction d with
  | nil => simp [dget, dset, h]
  | cons p d ih =>
      obtain ⟨k₀, v₀⟩ := p
      by_cases h0 : k₀ = k'
      · subst h0; simp [dget, dset, h]
      · simp only [dset, if_neg h0]
        by_cases h1 : k₀ = k
        · subst h1; simp [dget]
        · simp [dget, h1, ih]

theorem dkeys_dset (d : Dict) (k : String) (v : Value) :
    dkeys (dset d k v) = if dmem d k then dkeys d else dkeys d ++ [k] := by
  induction d with
  | nil => simp [dkeys, dset, dmem, dget]
  | cons p d ih =>
      obtain ⟨k₀, v₀⟩ := p
      by_cases h0 : k₀ = k
      · subst h0; simp [dkeys, dset, dmem, dget]
      · have hmem : dmem ((k₀, v₀) :: d) k = dmem d k := by simp [dmem, dget, h0]
        by_cases h1 : dmem d k
        · simp only [h1, if_true, dkeys] at ih
          simp [dset, if_neg h0, dkeys, hmem, h1, ih]
        · simp only [Bool.not_eq_true] at h1
          simp only [h1, Bool.false_eq_true, if_false, dkeys] at ih
          simp [dset, if_neg h0, dkeys, hmem, h1, ih]

theorem dmem_eq_isSome (d : Dict) (k : String) : dmem d k = (dget d k).isSome := rfl

theorem dget_isSome_of_mem_dkeys (d : Dict) (k : String) (h : k ∈ dkeys d) :
    (dget d k).isSome := by
  induction d with
  | nil => simp [dkeys] at h
  | cons p d ih =>
      obtain ⟨k₀, v₀⟩ := p
      by_cases h0 : k₀ = k
      · subst h0; simp [dget]
      · simp [dkeys, h0] at h
        rcases h with h | h
        · exact absurd h.symm h0
        · simpa [dget, h0] using ih (by simpa [dkeys] using h)

theorem dget_none_of_not_mem_dkeys (d : Dict) (k : String) (h : k ∉ dkeys d) :
    dget d k = none := by
  induction d with
  | nil => rfl
  | cons p d ih =>
      obtain ⟨k₀, v₀⟩ := p
      rw [show dkeys ((k₀, v₀) :: d) = k₀ :: dkeys d from rfl, List.mem_cons] at h
      push_neg at h
      have h1 : k₀ ≠ k := fun he => h.1 he.symm
      simp [dget, h1, ih h.2]

theorem nodup_dkeys_dset (d : Dict) (k : String) (v : Value)
    (h : (dkeys d).Nodup) : (dkeys (dset d k v)).Nodup := by
  rw [dkeys_dset]
  by_cases hm : dmem d k
  · simpa [hm]
  · simp only [hm, if_false]
    refine List.Nodup.append h (List.nodup_singleton k) ?_
    intro a ha hb
    simp at hb; subst hb
    have := dget_isSome_of_mem_dkeys d a ha
    rw [dmem_eq_isSome] at hm
    exact hm this

/-! ## Conflict construction and resolution lemmas -/

theorem create_conflict_field_name (f : String) (ev nv : Value) (es ns : String) :
    (_create_conflict f ev nv es ns).field_name = f := rfl

theorem create_conflict_suggested (f : String) (ev nv : Value) (es ns : String) :
    (_create_conflict f ev nv es ns).suggested_resolution
      = (fieldMergeStrategyOf f).toValue := rfl

theorem mergeStrategyOfString_toValue (st : MergeStrategy) :
    mergeStrategyOfString st.toValue = some st := by
  cases st <;> rfl

theorem resolve_create_ok (f : String) (ev nv : Value) (es ns : String) :
    ∃ r, _resolve_conflict (_create_conflict f ev nv es ns) = .ok r := by
  unfold _resolve_conflict
  rw [create_conflict_suggested, mergeStrategyOfString_toValue]
  cases fieldMergeStrategyOf f <;> exact ⟨_, rfl⟩

/-! ## Field-loop step lemmas -/

theorem processField_skip (ed : Dict) (es ns : String) (ar : Bool) (acc : MergeAcc)
    (kv : String × Value) (h : isSkippedNew kv.2 = true) :
    processField ed es ns ar acc kv = .ok acc := by
  simp [processField, h]

theorem processField_empty (ed : Dict) (es ns : String) (ar : Bool) (acc : MergeAcc)
    (kv : String × Value) (h1 : isSkippedNew kv.2 = false)
    (h2 : isEmptyExisting ((dget ed kv.1).getD .vnone) = true) :
    processField ed es ns ar acc kv =
      .ok { acc with merged_data := dset acc.merged_data kv.1 kv.2 } := by
  simp [processField, h1, h2]

theorem processField_conflict_auto (ed : Dict) (es ns : String) (acc : MergeAcc)
    (kv : String × Value) (rv : Value)
    (h1 : isSkippedNew kv.2 = false)
    (h2 : isEmptyExisting ((dget ed kv.1).getD .vnone) = false)
    (h3 : _values_equal ((dget ed kv.1).getD .vnone) kv.2 = false)
    (h4 : _resolve_conflict
        (_create_conflict kv.1 ((dget ed kv.1).getD .vnone) kv.2 es ns)
      = .ok (some rv)) :
    processField ed es ns true acc kv =
      .ok { merged_data := dset acc.merged_data kv.1 rv
            conflicts := acc.conflicts ++
              [_create_conflict kv.1 ((dget ed kv.1).getD .vnone) kv.2 es ns]
            auto_resolved := acc.auto_resolved ++ [kv.1]
            manual_required := acc.manual_required } := by
  simp [processField, h1, h2, h3, h4]

theorem processField_ok (ed : Dict) (es ns : String) (ar : Bool) (acc : MergeAcc)
    (kv : String × Value) : ∃ acc', processField ed es ns ar acc kv = .ok acc' := by
  obtain ⟨r, hr⟩ := resolve_create_ok kv.1 ((dget ed kv.1).getD .vnone) kv.2 es ns
  simp only [processField]
  split
  · exact ⟨_, rfl⟩
  · split
    · exact ⟨_, rfl⟩
    · split
      · exact ⟨_, rfl⟩
      · split
        · rw [hr]
          cases r with
          | none => exact ⟨_, rfl⟩
          | some rv => exact ⟨_, rfl⟩
        · exact ⟨_, rfl⟩

theorem processField_other (ed : Dict) (es ns : String) (ar : Bool)
    (acc acc' : MergeAcc) (kv : String × Value) (k : String) (hk : kv.1 ≠ k)
    (h : processField ed es ns ar acc kv = .ok acc') :
    dget acc'.merged_data k = dget acc.merged_data k ∧
    (k ∈ acc'.auto_resolved ↔ k ∈ acc.auto_resolved) ∧
    (k ∈ acc'.manual_required ↔ k ∈ acc.manual_required) ∧
    (∀ c ∈ acc'.conflicts, c ∈ acc.conflicts ∨ c.field_name ≠ k) ∧
    (∀ c ∈ acc.conflicts, c ∈ acc'.conflicts) := by
  have hfn : (_create_conflict kv.1 ((dget ed kv.1).getD .vnone) kv.2 es ns).field_name
      = kv.1 := rfl
  simp only [processField] at h
  split at h
  · cases h
    exact ⟨rfl, Iff.rfl, Iff.rfl, fun c hc => Or.inl hc, fun c hc => hc⟩
  · split at h
    · cases h
      exact ⟨dget_dset_ne _ _ _ _ hk, Iff.rfl, Iff.rfl,
        fun c hc => Or.inl hc, fun c hc => hc⟩
    · split at h
      · cases h
        exact ⟨dget_dset_ne _ _ _ _ hk, Iff.rfl, Iff.rfl,
          fun c hc => Or.inl hc, fun c hc => hc⟩
      · split at h
        · split at h
          · exact absurd h (by simp)
          next rv hres =>
            cases h
            refine ⟨dget_dset_ne _ _ _ _ hk, ?_, Iff.rfl, ?_, ?_⟩
            · simp [Ne.symm hk]
            · intro c hc
              rcases List.mem_append.1 hc with hc | hc
              · exact Or.inl hc
              · simp at hc; subst hc
                exact Or.inr (by rw [hfn]; exact hk)
            · intro c hc; exact List.mem_append.2 (Or.inl hc)
          next hres =>
            cases h
            refine ⟨dget_dset_ne _ _ _ _ hk, Iff.rfl, ?_, ?_, ?_⟩
            · simp [Ne.symm hk]
            · intro c hc
              rcases List.mem_append.1 hc with hc | hc
              · exact Or.inl hc
              · simp at hc; subst hc
                exact Or.inr (by rw [hfn]; exact hk)
            · intro c hc; exact List.mem_append.2 (Or.inl hc)
        · cases h
          refine ⟨dget_dset_ne _ _ _ _ hk, Iff.rfl, ?_, ?_, ?_⟩
          · simp [Ne.symm hk]
          · intro c hc
            rcases List.mem_append.1 hc with hc | hc
            · exact Or.inl hc
            · simp at hc; subst hc
              exact Or.inr (by rw [hfn]; exact hk)
          · intro c hc; exact List.mem_append.2 (Or.inl hc)

/-! ## Field-loop fold lemmas -/

theorem except_bind_ok {β γ : Type} (a : β) (f : β → Except String γ) :
    (Except.ok a >>= f) = f a := rfl

theorem except_bind_error {β γ : Type} (e : String) (f : β → Except String γ) :
    ((Except.error e : Except String β) >>= f) = Except.error e := rfl

theorem foldlM_except_cons {α β : Type} (f : β → α → Except String β) (b : β)
    (x : α) (xs : List α) :
    List.foldlM f b (x :: xs)
      = f b x >>= fun b' => List.foldlM f b' xs := by
  simp [List.foldlM]

theorem foldlM_except_append {α β : Type} (f : β → α → Except String β) (b : β)
    (l1 l2 : List α) :
    List.foldlM f b (l1 ++ l2)
      = List.foldlM f b l1 >>= fun b' => List.foldlM f b' l2 := by
  induction l1 generalizing b with
  | nil => simp [List.foldlM]
  | cons x xs ih =>
      simp only [List.cons_append, foldlM_except_cons]
      cases hfb : f b x with
      | error e => simp only [except_bind_error]
      | ok b' => simp only [except_bind_ok]; exact ih b'

theorem processField_fold_ok (ed : Dict) (es ns : String) (ar : Bool)
    (l : List (String × Value)) (acc : MergeAcc) :
    ∃ acc', List.foldlM (processField ed es ns ar) acc l = .ok acc' := by
  induction l generalizing acc with
  | nil => exact ⟨acc, rfl⟩
  | cons x xs ih =>
      obtain ⟨a1, h1⟩ := processField_ok ed es ns ar acc x
      obtain ⟨a2, h2⟩ := ih a1
      exact ⟨a2, by rw [foldlM_except_cons, h1, except_bind_ok]; exact h2⟩

theorem processField_fold_other (ed : Dict) (es ns : String) (ar : Bool)
    (l : List (String × Value)) (k : String) (hl : ∀ kv ∈ l, kv.1 ≠ k)
    (acc acc' : MergeAcc)
    (h : List.foldlM (processField ed es ns ar) acc l = .ok acc') :
    dget acc'.merged_data k = dget acc.merged_data k ∧
    (k ∈ acc'.auto_resolved ↔ k ∈ acc.auto_resolved) ∧
    (k ∈ acc'.manual_required ↔ k ∈ acc.manual_required) ∧
    (∀ c ∈ acc'.conflicts, c ∈ acc.conflicts ∨ c.field_name ≠ k) ∧
    (∀ c ∈ acc.conflicts, c ∈ acc'.conflicts) := by
  induction l generalizing acc with
  | nil =>
      cases h
      exact ⟨rfl, Iff.rfl, Iff.rfl, fun c hc => Or.inl hc, fun c hc => hc⟩
  | cons x xs ih =>
      rw [foldlM_except_cons] at h
      cases h1 : processField ed es ns ar acc x with
      | error e =>
          rw [h1, except_bind_error] at h
          exact absurd h (by simp)
      | ok a1 =>
          rw [h1, except_bind_ok] at h
          obtain ⟨g1, g2, g3, g4, g5⟩ :=
            processField_other ed es ns ar acc a1 x k (hl x (by simp)) h1
          obtain ⟨f1, f2, f3, f4, f5⟩ :=
            ih (fun kv hkv => hl kv (by simp [hkv])) a1 h
          refine ⟨f1.trans g1, f2.trans g2, f3.trans g3, ?_, ?_⟩
          · intro c hc
            rcases f4 c hc with hc' | hne
            · exact g4 c hc'
            · exact Or.inr hne
          · intro c hc; exact f5 c (g5 c hc)

/-! ## Copy-of-remaining-existing lemmas -/

theorem copyRemaining_cons (m : Dict) (kv : String × Value)
    (rest : List (String × Value)) :
    copyRemainingExisting m (kv :: rest) =
      copyRemainingExisting
        (if !dmem m kv.1 && !isNoneV kv.2 then dset m kv.1 kv.2 else m) rest := rfl

theorem copyRemaining_dget_present (m ed : Dict) (k : String) (x : Value)
    (h : dget m k = some x) :
    dget (copyRemainingExisting m ed) k = some x := by
  induction ed generalizing m with
  | nil => exact h
  | cons kv rest ih =>
      rw [copyRemaining_cons]
      by_cases h1 : (!dmem m kv.1 && !isNoneV kv.2) = true
      · rw [if_pos h1]
        by_cases h0 : kv.1 = k
        · exfalso
          subst h0
          have hm : dmem m kv.1 = true := by simp [dmem, h]
          simp [hm] at h1
        · exact ih _ (by rw [dget_dset_ne _ _ _ _ h0]; exact h)
      · rw [if_neg h1]; exact ih m h

theorem copyRemaining_dget_absent_key (m ed : Dict) (k : String)
    (h : k ∉ dkeys ed) :
    dget (copyRemainingExisting m ed) k = dget m k := by
  induction ed generalizing m with
  | nil => rfl
  | cons kv rest ih =>
      rw [show dkeys (kv :: rest) = kv.1 :: dkeys rest from rfl, List.mem_cons] at h
      push_neg at h
      rw [copyRemaining_cons]
      by_cases h1 : (!dmem m kv.1 && !isNoneV kv.2) = true
      · rw [if_pos h1, ih _ h.2, dget_dset_ne _ _ _ _ (fun he => h.1 he.symm)]
      · rw [if_neg h1]; exact ih m h.2

theorem copyRemaining_dget (m ed : Dict) (k : String)
    (hnd : (dkeys ed).Nodup) :
    dget (copyRemainingExisting m ed) k =
      match dget m k with
      | some x => some x
      | none =>
          match dget ed k with
          | some v => if isNoneV v then none else some v
          | none => none := by
  induction ed generalizing m with
  | nil => cases hget : dget m k <;> simp [copyRemainingExisting, dget, hget]
  | cons kv rest ih =>
      obtain ⟨k₀, v₀⟩ := kv
      rw [show dkeys ((k₀, v₀) :: rest) = k₀ :: dkeys rest from rfl] at hnd
      have hnd' := (List.nodup_cons.1 hnd).2
      have hk₀ : k₀ ∉ dkeys rest := (List.nodup_cons.1 hnd).1
      rw [copyRemaining_cons]
      by_cases h0 : k₀ = k
      · subst h0
        cases hget : dget m k₀ with
        | some x =>
            have hm : dmem m k₀ = true := by simp [dmem, hget]
            rw [if_neg (by simp [hm])]
            rw [copyRemaining_dget_absent_key m rest k₀ hk₀, hget]
        | none =>
            have hm : dmem m k₀ = false := by simp [dmem, hget]
            by_cases hv : isNoneV v₀ = true
            · rw [if_neg (by simp [hm, hv])]
              rw [copyRemaining_dget_absent_key m rest k₀ hk₀, hget]
              simp [dget, hv]
            · rw [if_pos (by simp [hm, hv])]
              rw [copyRemaining_dget_absent_key _ rest k₀ hk₀, dget_dset_self]
              simp [dget, hget, hv]
      · by_cases h1 : (!dmem m (k₀, v₀).1 && !isNoneV (k₀, v₀).2) = true
        · rw [if_pos h1, ih _ hnd', dget_dset_ne _ _ _ _ h0]
          simp [dget, h0]
        · rw [if_neg h1, ih _ hnd']
          simp [dget, h0]

/-! ## Merge-level shape lemmas -/

theorem merge_core_eq (ed nd : Dict) (ns es : String) (ar : Bool) :
    merge_vessel_data_core ed nd ns es ar =
      (List.foldlM (processField ed es ns ar) initMergeAcc nd) >>= fun acc =>
        (_validate_merged_data (copyRemainingExisting acc.merged_data ed))
          >>= fun ws =>
            pure (copyRemainingExisting acc.merged_data ed, acc.conflicts,
              acc.auto_resolved, acc.manual_required, ws) := rfl

theorem merge_vessel_data_success_shape (v : Vessel) (nd : Dict) (ns es : String)
    (ar : Bool) (h : (merge_vessel_data v nd ns es ar).success = true) :
    ∃ acc ws,
      List.foldlM (processField (_vessel_to_dict v) es ns ar) initMergeAcc nd
        = .ok acc ∧
      _validate_merged_data
        (copyRemainingExisting acc.merged_data (_vessel_to_dict v)) = .ok ws ∧
      merge_vessel_data v nd ns es ar =
        { success := true
          merged_data := copyRemainingExisting acc.merged_data (_vessel_to_dict v)
          conflicts := acc.conflicts
          auto_resolved := acc.auto_resolved
          manual_required := acc.manual_required
          warnings := ws
          error_message := none } := by
  obtain ⟨acc, hacc⟩ :=
    processField_fold_ok (_vessel_to_dict v) es ns ar nd initMergeAcc
  cases hval : _validate_merged_data
      (copyRemainingExisting acc.merged_data (_vessel_to_dict v)) with
  | error e =>
      exfalso
      have hm : merge_vessel_data v nd ns es ar =
          { success := false, merged_data := [], conflicts := [], auto_resolved := []
            manual_required := [], warnings := [], error_message := some e } := by
        unfold merge_vessel_data
        rw [merge_core_eq, hacc, except_bind_ok, hval, except_bind_error]
      rw [hm] at h
      simp at h
  | ok ws =>
      refine ⟨acc, ws, hacc, hval, ?_⟩
      unfold merge_vessel_data
      rw [merge_core_eq, hacc, except_bind_ok, hval, except_bind_ok]
      rfl

theorem merge_vessel_data_failure_shape (v : Vessel) (nd : Dict) (ns es : String)
    (ar : Bool) (h : (merge_vessel_data v nd ns es ar).success = false) :
    ∃ e, merge_vessel_data v nd ns es ar =
      { success := false, merged_data := [], conflicts := [], auto_resolved := []
        manual_required := [], warnings := [], error_message := some e } := by
  unfold merge_vessel_data at *
  cases hcore : merge_vessel_data_core (_vessel_to_dict v) nd ns es ar with
  | error e => exact ⟨e, rfl⟩
  | ok r =>
      rw [hcore] at h
      obtain ⟨m, cs, arl, mr, ws⟩ := r
      exact Bool.noConfusion h

/-! ## The field loop at one key -/

theorem fold_at_key (ed : Dict) (es ns : String) (ar : Bool)
    (nd : List (String × Value)) (k : String) (val : Value) (acc' : MergeAcc)
    (hnodup : (dkeys nd).Nodup) (hmem : (k, val) ∈ nd)
    (h : List.foldlM (processField ed es ns ar) initMergeAcc nd = .ok acc') :
    ∃ accPre acc1,
      processField ed es ns ar accPre (k, val) = .ok acc1 ∧
      dget accPre.merged_data k = none ∧
      k ∉ accPre.auto_resolved ∧
      k ∉ accPre.manual_required ∧
      (∀ c ∈ accPre.conflicts, c.field_name ≠ k) ∧
      dget acc'.merged_data k = dget acc1.merged_data k ∧
      (k ∈ acc'.auto_resolved ↔ k ∈ acc1.auto_resolved) ∧
      (k ∈ acc'.manual_required ↔ k ∈ acc1.manual_required) ∧
      (∀ c ∈ acc'.conflicts, c ∈ acc1.conflicts ∨ c.field_name ≠ k) ∧
      (∀ c ∈ acc1.conflicts, c ∈ acc'.conflicts) := by
  obtain ⟨l1, l2, rfl⟩ := List.append_of_mem hmem
  have hkeys : dkeys (l1 ++ (k, val) :: l2) = dkeys l1 ++ k :: dkeys l2 := by
    simp [dkeys]
  rw [hkeys] at hnodup
  have hdisj := List.disjoint_of_nodup_append hnodup
  have hk1 : k ∉ dkeys l1 := fun hkin => hdisj hkin (by simp)
  have hk2 : k ∉ dkeys l2 := by
    have := (List.Nodup.of_append_right hnodup)
    exact (List.nodup_cons.1 this).1
  have hne1 : ∀ kv ∈ l1, kv.1 ≠ k := by
    intro kv hkv he
    exact hk1 (he ▸ List.mem_map_of_mem Prod.fst hkv)
  have hne2 : ∀ kv ∈ l2, kv.1 ≠ k := by
    intro kv hkv he
    exact hk2 (he ▸ List.mem_map_of_mem Prod.fst hkv)
  rw [foldlM_except_append] at h
  obtain ⟨accPre, hpre⟩ := processField_fold_ok ed es ns ar l1 initMergeAcc
  rw [hpre, except_bind_ok, foldlM_except_cons] at h
  obtain ⟨acc1, hstep⟩ := processField_ok ed es ns ar accPre (k, val)
  rw [hstep, except_bind_ok] at h
  obtain ⟨p1, p2, p3, p4, p5⟩ :=
    processField_fold_other ed es ns ar l1 k hne1 initMergeAcc accPre hpre
  obtain ⟨q1, q2, q3, q4, q5⟩ :=
    processField_fold_other ed es ns ar l2 k hne2 acc1 acc' h
  refine ⟨accPre, acc1, hstep, ?_, ?_, ?_, ?_, q1, q2, q3, q4, q5⟩
  · exact p1
  · intro hk; exact absurd (p2.1 hk) (by simp [initMergeAcc])
  · intro hk; exact absurd (p3.1 hk) (by simp [initMergeAcc])
  · intro c hc
    rcases p4 c hc with hc1 | hne
    · exact absurd hc1 (by simp [initMergeAcc])
    · exact hne

/-! ## Per-field merge outcomes -/

theorem merge_accept_outcome (v : Vessel) (nd : Dict) (ns es : String) (ar : Bool)
    (k : String) (val : Value)
    (hnodup : (dkeys nd).Nodup) (hmem : (k, val) ∈ nd)
    (hskip : isSkippedNew val = false)
    (hempty : isEmptyExisting ((dget (_vessel_to_dict v) k).getD .vnone) = true)
    (hsucc : (merge_vessel_data v nd ns es ar).success = true) :
    dget (merge_vessel_data v nd ns es ar).merged_data k = some val ∧
    (∀ c ∈ (merge_vessel_data v nd ns es ar).conflicts, c.field_name ≠ k) ∧
    k ∉ (merge_vessel_data v nd ns es ar).auto_resolved ∧
    k ∉ (merge_vessel_data v nd ns es ar).manual_required := by
  obtain ⟨acc, ws, hacc, hval, heq⟩ :=
    merge_vessel_data_success_shape v nd ns es ar hsucc
  obtain ⟨accPre, acc1, hstep, hp1, hp2, hp3, hp4, hq1, hq2, hq3, hq4, hq5⟩ :=
    fold_at_key (_vessel_to_dict v) es ns ar nd k val acc hnodup hmem hacc
  rw [processField_empty _ _ _ _ _ _ hskip hempty] at hstep
  have hstep' : acc1 = { accPre with merged_data := dset accPre.merged_data k val } := by
    cases hstep; rfl
  subst hstep'
  rw [heq]
  refine ⟨?_, ?_, ?_, ?_⟩
  · exact copyRemaining_dget_present _ _ _ _ (by rw [hq1]; simp [dget_dset_self])
  · intro c hc
    rcases hq4 c hc with hc1 | hne
    · exact hp4 c hc1
    · exact hne
  · intro hk; exact hp2 (hq2.1 hk)
  · intro hk; exact hp3 (hq3.1 hk)

theorem merge_conflict_auto_outcome (v : Vessel) (nd : Dict) (ns es : String)
    (k : String) (val rv : Value)
    (hnodup : (dkeys nd).Nodup) (hmem : (k, val) ∈ nd)
    (hskip : isSkippedNew val = false)
    (hempty : isEmptyExisting ((dget (_vessel_to_dict v) k).getD .vnone) = false)
    (hneq : _values_equal ((dget (_vessel_to_dict v) k).getD .vnone) val = false)
    (hres : _resolve_conflict
        (_create_conflict k ((dget (_vessel_to_dict v) k).getD .vnone) val es ns)
      = .ok (some rv))
    (hsucc : (merge_vessel_data v nd ns es true).success = true) :
    dget (merge_vessel_data v nd ns es true).merged_data k = some rv ∧
    (_create_conflict k ((dget (_vessel_to_dict v) k).getD .vnone) val es ns
      ∈ (merge_vessel_data v nd ns es true).conflicts) ∧
    k ∈ (merge_vessel_data v nd ns es true).auto_resolved ∧
    k ∉ (merge_vessel_data v nd ns es true).manual_required := by
  obtain ⟨acc, ws, hacc, hval, heq⟩ :=
    merge_vessel_data_success_shape v nd ns es true hsucc
  obtain ⟨accPre, acc1, hstep, hp1, hp2, hp3, hp4, hq1, hq2, hq3, hq4, hq5⟩ :=
    fold_at_key (_vessel_to_dict v) es ns true nd k val acc hnodup hmem hacc
  rw [processField_conflict_auto _ _ _ _ _ _ hskip hempty hneq hres] at hstep
  have hstep' : acc1 =
      { merged_data := dset accPre.merged_data k rv
        conflicts := accPre.conflicts ++
          [_create_conflict k ((dget (_vessel_to_dict v) k).getD .vnone) val es ns]
        auto_resolved := accPre.auto_resolved ++ [k]
        manual_required := accPre.manual_required } := by
    cases hstep; rfl
  subst hstep'
  rw [heq]
  refine ⟨?_, ?_, ?_, ?_⟩
  · exact copyRemaining_dget_present _ _ _ _ (by rw [hq1]; simp [dget_dset_self])
  · exact hq5 _ (by simp)
  · exact hq2.2 (by simp)
  · intro hk; exact hp3 (hq3.1 hk)

/-! ## Claim theorems: identifier protection and empty-existing acceptance -/

theorem resolve_identifier_returns_existing (k : String)
    (hid : k = "imo_number" ∨ k = "mmsi_number" ∨ k = "official_number")
    (ev val : Value) (es ns : String) :
    _resolve_conflict (_create_conflict k ev val es ns) = .ok (some ev) := by
  rcases hid with h | h | h <;> subst h <;> rfl

/-- C1: for each identifier field (`imo_number`, `mmsi_number`,
`official_number`), whenever the existing record holds a non-empty value and
the candidate supplies a differing (beyond-tolerance) non-empty value, a
successful auto-resolving `merge_vessel_data` call maps the field to the
existing value in `merged_data` regardless of either source's reliability,
records the field in `conflicts`, lists it in `auto_resolved`, and not in
`manual_required`. -/
theorem identifier_fields_keep_existing_value (v : Vessel) (nd : Dict)
    (ns es : String) (k : String) (val : Value)
    (hid : k = "imo_number" ∨ k = "mmsi_number" ∨ k = "official_number")
    (hnodup : (dkeys nd).Nodup) (hmem : (k, val) ∈ nd)
    (hskip : isSkippedNew val = false)
    (hempty : isEmptyExisting ((dget (_vessel_to_dict v) k).getD .vnone) = false)
    (hneq : _values_equal ((dget (_vessel_to_dict v) k).getD .vnone) val = false)
    (hsucc : (merge_vessel_data v nd ns es true).success = true) :
    dget (merge_vessel_data v nd ns es true).merged_data k
      = some ((dget (_vessel_to_dict v) k).getD .vnone) ∧
    (∃ c ∈ (merge_vessel_data v nd ns es true).conflicts, c.field_name = k) ∧
    k ∈ (merge_vessel_data v nd ns es true).auto_resolved ∧
    k ∉ (merge_vessel_data v nd ns es true).manual_required := by
  obtain ⟨h1, h2, h3, h4⟩ := merge_conflict_auto_outcome v nd ns es k val
    ((dget (_vessel_to_dict v) k).getD .vnone) hnodup hmem hskip hempty hneq
    (resolve_identifier_returns_existing k hid _ _ _ _) hsucc
  exact ⟨h1, ⟨_, h2, create_conflict_field_name _ _ _ _ _⟩, h3, h4⟩

/-- Witness for C1: existing IMO `"9074729"`, candidate IMO `"1234567"` from
the `very_high`-reliability `imo_registry` source; the merge keeps
`"9074729"`, records the conflict and auto-resolves it. -/
theorem identifier_fields_keep_existing_value_witness :
    dget (merge_vessel_data (mkBaseVessel [("imo_number", .vstr "9074729")])
        [("imo_number", .vstr "1234567")] "imo_registry" "database" true).merged_data
      "imo_number" = some (.vstr "9074729") ∧
    (∃ c ∈ (merge_vessel_data (mkBaseVessel [("imo_number", .vstr "9074729")])
        [("imo_number", .vstr "1234567")] "imo_registry" "database" true).conflicts,
      c.field_name = "imo_number") ∧
    "imo_number" ∈ (merge_vessel_data (mkBaseVessel [("imo_number", .vstr "9074729")])
        [("imo_number", .vstr "1234567")] "imo_registry" "database" true).auto_resolved ∧
    "imo_number" ∉ (merge_vessel_data (mkBaseVessel [("imo_number", .vstr "9074729")])
        [("imo_number", .vstr "1234567")] "imo_registry" "database" true).manual_required :=
  identifier_fields_keep_existing_value
    (mkBaseVessel [("imo_number", .vstr "9074729")])
    [("imo_number", .vstr "1234567")] "imo_registry" "database" "imo_number"
    (.vstr "1234567") (Or.inl rfl) (by decide) (List.mem_singleton.2 rfl)
    rfl rfl rfl rfl

/-- C6: every field whose candidate value is non-empty and whose existing
value is absent, `None`, the empty string or zero is accepted outright by
a successful `merge_vessel_data` call: the candidate value lands in
`merged_data` and the field appears in none of `conflicts`, `auto_resolved`
or `manual_required`. -/
theorem empty_existing_accepts_candidate (v : Vessel) (nd : Dict)
    (ns es : String) (ar : Bool) (k : String) (val : Value)
    (hnodup : (dkeys nd).Nodup) (hmem : (k, val) ∈ nd)
    (hskip : isSkippedNew val = false)
    (hempty : isEmptyExisting ((dget (_vessel_to_dict v) k).getD .vnone) = true)
    (hsucc : (merge_vessel_data v nd ns es ar).success = true) :
    dget (merge_vessel_data v nd ns es ar).merged_data k = some val ∧
    (∀ c ∈ (merge_vessel_data v nd ns es ar).conflicts, c.field_name ≠ k) ∧
    k ∉ (merge_vessel_data v nd ns es ar).auto_resolved ∧
    k ∉ (merge_vessel_data v nd ns es ar).manual_required :=
  merge_accept_outcome v nd ns es ar k val hnodup hmem hskip hempty hsucc

/-- Witness for C6: a vessel with no builder accepts `builder = "Feadship"`
outright, with no conflict recorded. -/
theorem empty_existing_accepts_candidate_witness :
    dget (merge_vessel_data (mkBaseVessel [("vessel_name", .vstr "Serenity")])
        [("builder", .vstr "Feadship")] "marinetraffic" "database" true).merged_data
      "builder" = some (.vstr "Feadship") ∧
    (∀ c ∈ (merge_vessel_data (mkBaseVessel [("vessel_name", .vstr "Serenity")])
        [("builder", .vstr "Feadship")] "marinetraffic" "database" true).conflicts,
      c.field_name ≠ "builder") ∧
    "builder" ∉ (merge_vessel_data (mkBaseVessel [("vessel_name", .vstr "Serenity")])
        [("builder", .vstr "Feadship")] "marinetraffic" "database" true).auto_resolved ∧
    "builder" ∉ (merge_vessel_data (mkBaseVessel [("vessel_name", .vstr "Serenity")])
        [("builder", .vstr "Feadship")] "marinetraffic" "database" true).manual_required :=
  empty_existing_accepts_candidate
    (mkBaseVessel [("vessel_name", .vstr "Serenity")])
    [("builder", .vstr "Feadship")] "marinetraffic" "database" true "builder"
    (.vstr "Feadship") (by decide) (List.mem_singleton.2 rfl) rfl rfl rfl

/-- C10: an existing boolean field stored as `False` passes the emptiness
test (because `False == 0` in Python), so any non-empty candidate value for
it — even a differing one — replaces `False` outright in a successful
merge, with no conflict recorded and no policy protection applying. -/
theorem false_boolean_treated_as_empty (v : Vessel) (nd : Dict)
    (ns es : String) (ar : Bool) (k : String) (val : Value)
    (hnodup : (dkeys nd).Nodup) (hmem : (k, val) ∈ nd)
    (hskip : isSkippedNew val = false)
    (hfalse : dget (_vessel_to_dict v) k = some (.vbool false))
    (_hdiff : _values_equal (.vbool false) val = false)
    (hsucc : (merge_vessel_data v nd ns es ar).success = true) :
    dget (merge_vessel_data v nd ns es ar).merged_data k = some val ∧
    (∀ c ∈ (merge_vessel_data v nd ns es ar).conflicts, c.field_name ≠ k) ∧
    k ∉ (merge_vessel_data v nd ns es ar).auto_resolved ∧
    k ∉ (merge_vessel_data v nd ns es ar).manual_required :=
  merge_accept_outcome v nd ns es ar k val hnodup hmem hskip
    (by rw [hfalse]; rfl) hsucc

/-- Witness for C10: a fresh yacht record holds `superyacht_status = False`;
a candidate `True` from an unreliable source replaces it with no conflict. -/
theorem false_boolean_treated_as_empty_witness :
    dget (merge_vessel_data (mkYachtVessel []) [("superyacht_status", .vbool true)]
        "user_input" "database" true).merged_data "superyacht_status"
      = some (.vbool true) ∧
    (∀ c ∈ (merge_vessel_data (mkYachtVessel []) [("superyacht_status", .vbool true)]
        "user_input" "database" true).conflicts,
      c.field_name ≠ "superyacht_status") ∧
    "superyacht_status" ∉ (merge_vessel_data (mkYachtVessel [])
        [("superyacht_status", .vbool true)]
        "user_input" "database" true).auto_resolved ∧
    "superyacht_status" ∉ (merge_vessel_data (mkYachtVessel [])
        [("superyacht_status", .vbool true)]
        "user_input" "database" true).manual_required :=
  false_boolean_treated_as_empty (mkYachtVessel [])
    [("superyacht_status", .vbool true)] "user_input" "database" true
    "superyacht_status" (.vbool true) (by decide) (List.mem_singleton.2 rfl)
    rfl (by rfl) rfl rfl

/-! ## Claim theorems: prefer_reliable and the Serenity scenario -/

/-- C7: resolving a `prefer_reliable` conflict returns the candidate value
iff the candidate source's reliability is strictly higher than the existing
source's (else the existing value); and in the concrete scenario — existing
`{vessel_name: "Serenity", length_overall: 45.0, imo_number: "9074729"}`
merged with `{length_overall: 45.3, builder: "Feadship"}` from the
medium-reliability `boat_international` source against the default
`database` source — the merge accepts `builder = "Feadship"` outright,
keeps `length_overall = 45.0`, and records exactly one conflict, for
`length_overall`. -/
theorem prefer_reliable_iff_strictly_higher (c : MergeConflict)
    (hstrat : c.suggested_resolution = "prefer_reliable")
    (hne : c.new_value ≠ c.existing_value) :
    (_resolve_conflict c = .ok (some c.new_value) ↔
      c.existing_reliability.val < c.new_reliability.val) ∧
    (¬ c.existing_reliability.val < c.new_reliability.val →
      _resolve_conflict c = .ok (some c.existing_value)) ∧
    dget (merge_vessel_data
        (mkBaseVessel [("vessel_name", .vstr "Serenity"),
          ("length_overall", .vnum 45), ("imo_number", .vstr "9074729")])
        [("length_overall", .vnum ⟨453, 10⟩), ("builder", .vstr "Feadship")]
        "boat_international" "database" true).merged_data "builder"
      = some (.vstr "Feadship") ∧
    dget (merge_vessel_data
        (mkBaseVessel [("vessel_name", .vstr "Serenity"),
          ("length_overall", .vnum 45), ("imo_number", .vstr "9074729")])
        [("length_overall", .vnum ⟨453, 10⟩), ("builder", .vstr "Feadship")]
        "boat_international" "database" true).merged_data "length_overall"
      = some (.vnum 45) ∧
    (merge_vessel_data
        (mkBaseVessel [("vessel_name", .vstr "Serenity"),
          ("length_overall", .vnum 45), ("imo_number", .vstr "9074729")])
        [("length_overall", .vnum ⟨453, 10⟩), ("builder", .vstr "Feadship")]
        "boat_international" "database" true).conflicts.map
      (fun c => c.field_name) = ["length_overall"] := by
  have hres : _resolve_conflict c =
      .ok (some (if c.existing_reliability.val < c.new_reliability.val
                 then c.new_value else c.existing_value)) := by
    unfold _resolve_conflict
    rw [hstrat]
    rfl
  refine ⟨⟨fun h => ?_, fun h => ?_⟩, fun h => ?_, rfl, rfl, rfl⟩
  · by_cases hlt : c.existing_reliability.val < c.new_reliability.val
    · exact hlt
    · rw [hres, if_neg hlt] at h
      exact absurd (Option.some.inj (Except.ok.inj h)).symm hne
  · rw [hres, if_pos h]
  · rw [hres, if_neg h]

/-- Witness for C7: a `length_overall` conflict between two
medium-reliability sources resolves to the existing value (reliability not
strictly higher). -/
theorem prefer_reliable_iff_strictly_higher_witness :
    (_resolve_conflict (_create_conflict "length_overall" (.vnum 45)
        (.vnum ⟨453, 10⟩) "database" "boat_international")
      = .ok (some (_create_conflict "length_overall" (.vnum 45)
        (.vnum ⟨453, 10⟩) "database" "boat_international").new_value) ↔
      (_create_conflict "length_overall" (.vnum 45)
        (.vnum ⟨453, 10⟩) "database" "boat_international").existing_reliability.val
      < (_create_conflict "length_overall" (.vnum 45)
        (.vnum ⟨453, 10⟩) "database" "boat_international").new_reliability.val) ∧
    (¬ (_create_conflict "length_overall" (.vnum 45)
        (.vnum ⟨453, 10⟩) "database" "boat_international").existing_reliability.val
      < (_create_conflict "length_overall" (.vnum 45)
        (.vnum ⟨453, 10⟩) "database" "boat_international").new_reliability.val →
      _resolve_conflict (_create_conflict "length_overall" (.vnum 45)
        (.vnum ⟨453, 10⟩) "database" "boat_international")
      = .ok (some (_create_conflict "length_overall" (.vnum 45)
        (.vnum ⟨453, 10⟩) "database" "boat_international").existing_value)) ∧
    dget (merge_vessel_data
        (mkBaseVessel [("vessel_name", .vstr "Serenity"),
          ("length_overall", .vnum 45), ("imo_number", .vstr "9074729")])
        [("length_overall", .vnum ⟨453, 10⟩), ("builder", .vstr "Feadship")]
        "boat_international" "database" true).merged_data "builder"
      = some (.vstr "Feadship") ∧
    dget (merge_vessel_data
        (mkBaseVessel [("vessel_name", .vstr "Serenity"),
          ("length_overall", .vnum 45), ("imo_number", .vstr "9074729")])
        [("length_overall", .vnum ⟨453, 10⟩), ("builder", .vstr "Feadship")]
        "boat_international" "database" true).merged_data "length_overall"
      = some (.vnum 45) ∧
    (merge_vessel_data
        (mkBaseVessel [("vessel_name", .vstr "Serenity"),
          ("length_overall", .vnum 45), ("imo_number", .vstr "9074729")])
        [("length_overall", .vnum ⟨453, 10⟩), ("builder", .vstr "Feadship")]
        "boat_international" "database" true).conflicts.map
      (fun c => c.field_name) = ["length_overall"] :=
  prefer_reliable_iff_strictly_higher
    (_create_conflict "length_overall" (.vnum 45) (.vnum ⟨453, 10⟩)
      "database" "boat_international") rfl
    (by intro h; injection h with h'; exact absurd h' (by decide))

/-! ## Claim theorems: failure of a pass discards all accumulation -/

theorem mergeSourcesLoop_failure_empty (ar : Bool) (srcs : List (Dict × String))
    (cur : Dict) (cs : List MergeConflict) (al ml wl : List String)
    (h : (mergeSourcesLoop ar cur cs al ml wl srcs).success = false) :
    (mergeSourcesLoop ar cur cs al ml wl srcs).merged_data = [] ∧
    (mergeSourcesLoop ar cur cs al ml wl srcs).conflicts = [] ∧
    (mergeSourcesLoop ar cur cs al ml wl srcs).auto_resolved = [] ∧
    (mergeSourcesLoop ar cur cs al ml wl srcs).manual_required = [] ∧
    (mergeSourcesLoop ar cur cs al ml wl srcs).warnings = [] ∧
    (mergeSourcesLoop ar cur cs al ml wl srcs).error_message.isSome = true := by
  induction srcs generalizing cur cs al ml wl with
  | nil => exact absurd h (by simp [mergeSourcesLoop])
  | cons x rest ih =>
      obtain ⟨nd, src⟩ := x
      simp only [mergeSourcesLoop] at h ⊢
      by_cases hs : (merge_vessel_data (_create_vessel_from_dict cur) nd src
          "database" ar).success = false
      · rw [if_pos hs]
        obtain ⟨e, he⟩ := merge_vessel_data_failure_shape _ _ _ _ _ hs
        rw [he]
        exact ⟨rfl, rfl, rfl, rfl, rfl, rfl⟩
      · rw [if_neg hs] at h ⊢
        exact ih _ _ _ _ _ h

/-- C9: whenever any pass of `merge_multiple_sources` fails, the failing
pass's `MergeResult` is returned as-is, so the returned result carries the
failing pass's empty collections — all conflicts, resolutions, warnings and
merged fields accumulated by earlier successful passes are discarded. -/
theorem merge_multiple_sources_failure_discards (v : Vessel)
    (data_sources : List (Dict × String)) (ar : Bool)
    (h : (merge_multiple_sources v data_sources ar).success = false) :
    (merge_multiple_sources v data_sources ar).merged_data = [] ∧
    (merge_multiple_sources v data_sources ar).conflicts = [] ∧
    (merge_multiple_sources v data_sources ar).auto_resolved = [] ∧
    (merge_multiple_sources v data_sources ar).manual_required = [] ∧
    (merge_multiple_sources v data_sources ar).warnings = [] ∧
    (merge_multiple_sources v data_sources ar).error_message.isSome = true :=
  mergeSourcesLoop_failure_empty ar data_sources (_vessel_to_dict v) [] [] [] [] h

/-- Witness for C9: the first pass succeeds and records a `builder`
conflict; the second pass fails (a string `length_overall` is compared with
a numeric `beam` during validation), and the returned result has every
collection empty. -/
theorem merge_multiple_sources_failure_discards_witness :
    (merge_multiple_sources (mkBaseVessel [("beam", .vnum 4), ("builder", .vstr "Old")])
      [([("builder", .vstr "New")], "imo_registry"),
       ([("length_overall", .vstr "45 m")], "marinetraffic")] true).merged_data = [] ∧
    (merge_multiple_sources (mkBaseVessel [("beam", .vnum 4), ("builder", .vstr "Old")])
      [([("builder", .vstr "New")], "imo_registry"),
       ([("length_overall", .vstr "45 m")], "marinetraffic")] true).conflicts = [] ∧
    (merge_multiple_sources (mkBaseVessel [("beam", .vnum 4), ("builder", .vstr "Old")])
      [([("builder", .vstr "New")], "imo_registry"),
       ([("length_overall", .vstr "45 m")], "marinetraffic")] true).auto_resolved = [] ∧
    (merge_multiple_sources (mkBaseVessel [("beam", .vnum 4), ("builder", .vstr "Old")])
      [([("builder", .vstr "New")], "imo_registry"),
       ([("length_overall", .vstr "45 m")], "marinetraffic")] true).manual_required = [] ∧
    (merge_multiple_sources (mkBaseVessel [("beam", .vnum 4), ("builder", .vstr "Old")])
      [([("builder", .vstr "New")], "imo_registry"),
       ([("length_overall", .vstr "45 m")], "marinetraffic")] true).warnings = [] ∧
    (merge_multiple_sources (mkBaseVessel [("beam", .vnum 4), ("builder", .vstr "Old")])
      [([("builder", .vstr "New")], "imo_registry"),
       ([("length_overall", .vstr "45 m")], "marinetraffic")] true).error_message.isSome
      = true :=
  merge_multiple_sources_failure_discards
    (mkBaseVessel [("beam", .vnum 4), ("builder", .vstr "Old")])
    [([("builder", .vstr "New")], "imo_registry"),
     ([("length_overall", .vstr "45 m")], "marinetraffic")] true
    (by set_option maxRecDepth 400000 in rfl)

/-! ## Claim theorems: conflict confidence has no numeric boost -/

/-- Counterexample to C2: two conflicts between the same medium-reliability
sources, one with numeric values within 10% (100 vs 105) and one with
values 50% apart (100 vs 150), get the same detector confidence — the
within-10% conflict's confidence is not 0.2 higher (it is strictly less
than the other plus 0.2), because `_create_conflict` never adds a numeric
closeness boost. -/
theorem conflict_confidence_no_boost_counterexample :
    (_create_conflict "beam" (.vnum 100) (.vnum 105)
        "database" "database").confidence
      = (_create_conflict "beam" (.vnum 100) (.vnum 150)
        "database" "database").confidence ∧
    ((_create_conflict "beam" (.vnum 100) (.vnum 105)
        "database" "database").confidence).blt
      (((_create_conflict "beam" (.vnum 100) (.vnum 150)
        "database" "database").confidence).add ⟨1, 5⟩) = true :=
  ⟨rfl, rfl⟩

/-- C2 (amended): the conflict detector's confidence is
`min(0.9, max(0.1, (5 − |Δreliability|)/5))`, depends only on the two
sources (never on the conflicting values, so numeric closeness changes
nothing), and always lies in [0.1, 0.9]; the +0.2 within-10% numeric boost
exists only in the enhancement service's separate
`_calculate_conflict_confidence`, whose base is `reliability(source)/5`. -/
theorem conflict_confidence_reliability_only (f : String) (ev nv ev' nv' : Value)
    (es ns : String) :
    (_create_conflict f ev nv es ns).confidence
      = (_create_conflict f ev' nv' es ns).confidence ∧
    PyRat.ble ⟨1, 10⟩ (_create_conflict f ev nv es ns).confidence = true ∧
    PyRat.ble (_create_conflict f ev nv es ns).confidence ⟨9, 10⟩ = true ∧
    (∀ a b : PyRat, (a.pymax b).beq 0 = false →
      ((a.sub b).pabs.div (a.pymax b)).blt ⟨1, 10⟩ = true →
      _calculate_conflict_confidence (.vnum a) (.vnum b) ns
        = .ok (((PyRat.div ⟨((enhancementReliabilityOf ns).val : Int), 1⟩ 5).add
            ⟨1, 5⟩).pymin 1)) := by
  have hbounds : ∀ er nr : DataReliability,
      PyRat.ble ⟨1, 10⟩ (conflictConfidence er nr) = true ∧
      PyRat.ble (conflictConfidence er nr) ⟨9, 10⟩ = true := by decide
  refine ⟨rfl, (hbounds _ _).1, (hbounds _ _).2, ?_⟩
  intro a b h1 h2
  simp [_calculate_conflict_confidence, pyNumVal?, h1, h2]

/-- Witness for C2 (amended): concrete instantiation, with the enhancement
confidence computed for values 100 and 105 from `marinetraffic`. -/
theorem conflict_confidence_reliability_only_witness :
    (_create_conflict "beam" (.vnum 1) (.vnum 2)
        "database" "marinetraffic").confidence
      = (_create_conflict "beam" (.vnum 3) (.vnum 4)
        "database" "marinetraffic").confidence ∧
    PyRat.ble ⟨1, 10⟩ (_create_conflict "beam" (.vnum 1) (.vnum 2)
        "database" "marinetraffic").confidence = true ∧
    PyRat.ble (_create_conflict "beam" (.vnum 1) (.vnum 2)
        "database" "marinetraffic").confidence ⟨9, 10⟩ = true ∧
    _calculate_conflict_confidence (.vnum 100) (.vnum 105) "marinetraffic"
      = .ok (((PyRat.div
          ⟨((enhancementReliabilityOf "marinetraffic").val : Int), 1⟩ 5).add
            ⟨1, 5⟩).pymin 1) := by
  obtain ⟨h1, h2, h3, h4⟩ := conflict_confidence_reliability_only "beam"
    (.vnum 1) (.vnum 2) (.vnum 3) (.vnum 4) "database" "marinetraffic"
  exact ⟨h1, h2, h3, h4 100 105 rfl rfl⟩

/-! ## Claim theorems: unknown sources default to LOW, not VERY_LOW -/

/-- Counterexample to C4: a source name absent from the reliability table
resolves to `DataReliability.low` (numeric level 2), which is not the
lowest of the five levels (`very_low`, level 1), in both reliability slots
of a created conflict. -/
theorem unknown_source_not_lowest_counterexample :
    (_create_conflict "beam" (.vnum 1) (.vnum 2)
        "totally_unknown" "also_unknown").existing_reliability
      = DataReliability.low ∧
    (_create_conflict "beam" (.vnum 1) (.vnum 2)
        "totally_unknown" "also_unknown").new_reliability
      = DataReliability.low ∧
    DataReliability.low ≠ DataReliability.very_low ∧
    DataReliability.low.val = 2 :=
  ⟨rfl, rfl, by decide, rfl⟩

/-- C4 (amended): the reliability lookup is a function, so every source
name resolves to exactly one level; a name not present in the table
resolves to `LOW` (level 2, the second-lowest of the five levels, the
Wikipedia/user-input tier), and `_create_conflict` applies this lookup to
both the existing and the candidate source. -/
theorem unknown_sources_default_to_low (s : String)
    (h : s ∉ source_reliability.map Prod.fst) :
    sourceReliabilityOf s = DataReliability.low ∧
    (∀ (f : String) (ev nv : Value) (es ns : String),
      (_create_conflict f ev nv es ns).existing_reliability
        = sourceReliabilityOf es ∧
      (_create_conflict f ev nv es ns).new_reliability
        = sourceReliabilityOf ns) := by
  constructor
  · unfold sourceReliabilityOf
    have hfind : source_reliability.find? (fun p => p.1 == s) = none := by
      rw [List.find?_eq_none]
      intro p hp hbeq
      exact h (List.mem_map.2 ⟨p, hp, eq_of_beq hbeq⟩)
    rw [hfind]
    rfl
  · intro f ev nv es ns
    exact ⟨rfl, rfl⟩

/-- Witness for C4 (amended): the unknown source `"totally_unknown"`. -/
theorem unknown_sources_default_to_low_witness :
    sourceReliabilityOf "totally_unknown" = DataReliability.low ∧
    (∀ (f : String) (ev nv : Value) (es ns : String),
      (_create_conflict f ev nv es ns).existing_reliability
        = sourceReliabilityOf es ∧
      (_create_conflict f ev nv es ns).new_reliability
        = sourceReliabilityOf ns) :=
  unknown_sources_default_to_low "totally_unknown" (by decide)

/-! ## Claim theorems: no net/gross tonnage check in validation -/

/-- Counterexample to C5: a successful merge whose merged map holds
`net_tonnage = 100 > gross_tonnage = 50` produces an empty warnings list —
no warning is emitted for the tonnage violation (and the merge is not
blocked). -/
theorem net_gross_tonnage_no_warning_counterexample :
    (merge_vessel_data (mkBaseVessel [("gross_tonnage", .vnum 50)])
      [("net_tonnage", .vnum 100)] "marinetraffic" "database" true).success
      = true ∧
    dget (merge_vessel_data (mkBaseVessel [("gross_tonnage", .vnum 50)])
      [("net_tonnage", .vnum 100)] "marinetraffic" "database" true).merged_data
      "net_tonnage" = some (.vnum 100) ∧
    dget (merge_vessel_data (mkBaseVessel [("gross_tonnage", .vnum 50)])
      [("net_tonnage", .vnum 100)] "marinetraffic" "database" true).merged_data
      "gross_tonnage" = some (.vnum 50) ∧
    (merge_vessel_data (mkBaseVessel [("gross_tonnage", .vnum 50)])
      [("net_tonnage", .vnum 100)] "marinetraffic" "database" true).warnings
      = [] :=
  ⟨rfl, rfl, rfl, rfl⟩

theorem except_bind_ok_inv {β γ : Type} (x : Except String β)
    (f : β → Except String γ) (c : γ) (h : (x >>= f) = .ok c) :
    ∃ b, x = .ok b ∧ f b = .ok c := by
  cases x with
  | error e => rw [except_bind_error] at h; exact absurd h (by simp)
  | ok b => rw [except_bind_ok] at h; exact ⟨b, rfl, h⟩

theorem validate_warnings_shape (m : Dict) (ws : List String)
    (h : _validate_merged_data m = .ok ws) :
    ∀ w ∈ ws, w = beamWarning ∨ (∃ s, w = speedWarning s) ∨
      (∃ e, w = imoWarning e) := by
  unfold _validate_merged_data at h
  obtain ⟨w1, hw1, h⟩ := except_bind_ok_inv _ _ _ h
  obtain ⟨w2, hw2, h⟩ := except_bind_ok_inv _ _ _ h
  obtain ⟨w3, hw3, h⟩ := except_bind_ok_inv _ _ _ h
  have hws : ws = w1 ++ w2 ++ w3 := (Except.ok.inj h).symm
  have c1 : w1 = [] ∨ w1 = [beamWarning] := by
    unfold validateBeamBlock at hw1
    split at hw1
    · split at hw1
      · obtain ⟨b, hb, hpure⟩ := except_bind_ok_inv _ _ _ hw1
        have heq := (Except.ok.inj hpure).symm
        cases b
        · exact Or.inl heq
        · exact Or.inr heq
      · exact Or.inl (Except.ok.inj hw1).symm
    · exact Or.inl (Except.ok.inj hw1).symm
  have c2 : w2 = [] ∨ ∃ s, w2 = [speedWarning s] := by
    unfold validateSpeedBlock at hw2
    split at hw2
    · split at hw2
      · obtain ⟨b, hb, hpure⟩ := except_bind_ok_inv _ _ _ hw2
        have heq := (Except.ok.inj hpure).symm
        cases b
        · exact Or.inl heq
        · exact Or.inr ⟨_, heq⟩
      · exact Or.inl (Except.ok.inj hw2).symm
    · exact Or.inl (Except.ok.inj hw2).symm
  have c3 : w3 = [] ∨ ∃ e, w3 = [imoWarning e] := by
    unfold validateImoBlock at hw3
    split at hw3
    · split at hw3
      · obtain ⟨r, hr, hpure⟩ := except_bind_ok_inv _ _ _ hw3
        have heq := (Except.ok.inj hpure).symm
        by_cases hr1 : r.1 = true
        · rw [if_pos hr1] at heq
          exact Or.inl heq
        · rw [if_neg hr1] at heq
          exact Or.inr ⟨_, heq⟩
      · exact Or.inl (Except.ok.inj hw3).symm
    · exact Or.inl (Except.ok.inj hw3).symm
  intro w hw
  rw [hws] at hw
  rcases List.mem_append.1 hw with hw' | hw'
  · rcases List.mem_append.1 hw' with hw'' | hw''
    · rcases c1 with hc | hc <;> rw [hc] at hw''
      · simp at hw''
      · simp at hw''
        exact Or.inl hw''
    · rcases c2 with hc | hc
      · rw [hc] at hw''; simp at hw''
      · obtain ⟨s, hc⟩ := hc
        rw [hc] at hw''
        simp at hw''
        exact Or.inr (Or.inl ⟨s, hw''⟩)
  · rcases c3 with hc | hc
    · rw [hc] at hw'; simp at hw'
    · obtain ⟨e, hc⟩ := hc
      rw [hc] at hw'
      simp at hw'
      exact Or.inr (Or.inr ⟨e, hw'⟩)

/-- C5 (amended): the merged-data validator has no net/gross tonnage check:
every warning a `merge_vessel_data` call can return is the beam/length
message, a max-speed message, or an IMO-validation message — a merged map
with `net_tonnage > gross_tonnage` gets no warning for it, and the
violation never blocks the merge (the counterexample merge succeeds with
both values in place). -/
theorem merge_warnings_only_known_checks (v : Vessel) (nd : Dict)
    (ns es : String) (ar : Bool) (w : String)
    (hw : w ∈ (merge_vessel_data v nd ns es ar).warnings) :
    w = beamWarning ∨ (∃ s, w = speedWarning s) ∨ (∃ e, w = imoWarning e) := by
  by_cases hs : (merge_vessel_data v nd ns es ar).success = true
  · obtain ⟨acc, ws, hacc, hval, heq⟩ :=
      merge_vessel_data_success_shape v nd ns es ar hs
    rw [heq] at hw
    exact validate_warnings_shape _ _ hval w hw
  · obtain ⟨e, he⟩ := merge_vessel_data_failure_shape v nd ns es ar
      (Bool.not_eq_true _ ▸ hs)
    rw [he] at hw
    simp at hw

/-- Witness for C5 (amended): a merge whose merged map has `beam = 50 >
length_overall = 40` emits the beam warning, which the characterization
classifies. -/
theorem merge_warnings_only_known_checks_witness :
    beamWarning = beamWarning ∨ (∃ s, beamWarning = speedWarning s) ∨
      (∃ e, beamWarning = imoWarning e) :=
  merge_warnings_only_known_checks
    (mkBaseVessel [("beam", .vnum 50), ("length_overall", .vnum 40)])
    [("vessel_name", .vstr "X")] "marinetraffic" "database" true beamWarning
    (by decide)

/-! ## Opportunity sorting lemmas -/

theorem PyRat.ble_total (a b : PyRat) (h : a.ble b = false) : b.ble a = true := by
  simp only [PyRat.ble, decide_eq_true_eq, decide_eq_false_iff_not, not_le] at *
  exact le_of_lt h

theorem PyRat.ble_trans {a b c : PyRat} (hb : 0 < b.den)
    (h1 : a.ble b = true) (h2 : b.ble c = true) : a.ble c = true := by
  simp only [PyRat.ble, decide_eq_true_eq] at *
  have hbd : (0 : Int) < (b.den : Int) := by exact_mod_cast hb
  have e1 := mul_le_mul_of_nonneg_right h1 (Int.natCast_nonneg c.den)
  have e2 := mul_le_mul_of_nonneg_right h2 (Int.natCast_nonneg a.den)
  have hmain : a.num * c.den * b.den ≤ c.num * a.den * b.den := by nlinarith
  exact le_of_mul_le_mul_right hmain hbd

theorem mem_insertOpp (x y : EnhancementOpportunity)
    (l : List EnhancementOpportunity) :
    y ∈ insertOpp x l ↔ y = x ∨ y ∈ l := by
  induction l with
  | nil => simp [insertOpp]
  | cons z zs ih =>
      simp only [insertOpp]
      split
      · rw [List.mem_cons, ih, List.mem_cons]
        tauto
      · rw [List.mem_cons]

theorem mem_sortOpps (y : EnhancementOpportunity)
    (l : List EnhancementOpportunity) : y ∈ sortOpps l ↔ y ∈ l := by
  induction l with
  | nil => simp [sortOpps]
  | cons z zs ih =>
      simp only [sortOpps, mem_insertOpp, List.mem_cons, ih]

theorem insertOpp_sorted (x : EnhancementOpportunity)
    (l : List EnhancementOpportunity)
    (hl : ∀ o ∈ l, 0 < o.confidence.den)
    (hs : l.Pairwise (fun a b => b.confidence.ble a.confidence = true)) :
    (insertOpp x l).Pairwise
      (fun a b => b.confidence.ble a.confidence = true) := by
  induction l with
  | nil => simp [insertOpp]
  | cons z zs ih =>
      simp only [insertOpp]
      rw [List.pairwise_cons] at hs
      split
      next hle =>
          rw [List.pairwise_cons]
          constructor
          · intro b hb
            rcases (mem_insertOpp x b zs).1 hb with rfl | hb
            · exact hle
            · exact hs.1 b hb
          · exact ih (fun o ho => hl o (by simp [ho])) hs.2
      next hle =>
          rw [List.pairwise_cons]
          constructor
          · intro b hb
            rcases List.mem_cons.1 hb with rfl | hb
            · exact PyRat.ble_total _ _ (by simpa using hle)
            · exact PyRat.ble_trans (hl z (by simp))
                (hs.1 b hb)
                (PyRat.ble_total _ _ (by simpa using hle))
          · exact List.pairwise_cons.2 ⟨hs.1, hs.2⟩
  
theorem sortOpps_sorted (l : List EnhancementOpportunity)
    (hl : ∀ o ∈ l, 0 < o.confidence.den) :
    (sortOpps l).Pairwise (fun a b => b.confidence.ble a.confidence = true) := by
  induction l with
  | nil => simp [sortOpps]
  | cons z zs ih =>
      simp only [sortOpps]
      refine insertOpp_sorted z (sortOpps zs) ?_ ?_
      · intro o ho
        exact hl o (by simp [(mem_sortOpps o zs).1 ho])
      · exact ih (fun o ho => hl o (by simp [ho]))

theorem marinetraffic_opps_posden (v : Vessel) :
    ∀ o ∈ _get_marinetraffic_opportunities v, 0 < o.confidence.den := by
  intro o ho
  unfold _get_marinetraffic_opportunities at ho
  rcases List.mem_append.1 ho with h | h
  · split at h
    · simp at h
      subst h
      exact (by decide : (0 : ℕ) < 20)
    · simp at h
  · split at h
    · simp at h
      subst h
      exact (by decide : (0 : ℕ) < 10)
    · simp at h

theorem boat_opps_posden (v : Vessel) (l : List EnhancementOpportunity)
    (h : _get_boat_international_opportunities v = .ok l) :
    ∀ o ∈ l, 0 < o.confidence.den := by
  intro o ho
  unfold _get_boat_international_opportunities at h
  split at h
  · obtain ⟨tag, htag, h⟩ := except_bind_ok_inv _ _ _ h
    split at h
    · split at h
      · have := Except.ok.inj h
        rw [← this] at ho
        simp at ho
        subst ho
        exact (by decide : (0 : ℕ) < 10)
      · rw [← Except.ok.inj h] at ho; simp at ho
    · rw [← Except.ok.inj h] at ho; simp at ho
  · rw [← Except.ok.inj h] at ho; simp at ho

theorem marinetraffic_opps_sorted (v : Vessel) :
    (_get_marinetraffic_opportunities v).Pairwise
      (fun a b => b.confidence.ble a.confidence = true) := by
  unfold _get_marinetraffic_opportunities
  split
  · split
    · refine List.pairwise_cons.2 ⟨?_, List.pairwise_singleton _ _⟩
      intro b hb
      simp at hb
      subst hb
      exact (by decide :
        PyRat.ble (⟨9, 10⟩ : PyRat) (⟨19, 20⟩ : PyRat) = true)
    · simp
  · split
    · simp
    · simp

/-! ## Claim theorems: opportunity detection -/

/-- Counterexample to C8: a vessel with a truthy IMO number yields no
MarineTraffic opportunity at all when no API key is configured — the
returned list is empty. -/
theorem imo_opportunity_requires_api_key_counterexample :
    pyTruthy ((dget (mkBaseVessel [("imo_number", .vstr "9074729")]).attrs
      "imo_number").getD .vnone) = true ∧
    get_enhancement_opportunities
      (some (mkBaseVessel [("imo_number", .vstr "9074729")])) .vnone = [] :=
  ⟨rfl, rfl⟩

theorem get_opps_some_eq (v : Vessel) (api_key : Value) :
    get_enhancement_opportunities (some v) api_key =
      match _get_boat_international_opportunities v with
      | .error _ =>
          if pyTruthy api_key then _get_marinetraffic_opportunities v else []
      | .ok boat =>
          sortOpps
            ((if pyTruthy api_key then _get_marinetraffic_opportunities v
              else []) ++ boat) := rfl

/-- C8 (amended): the opportunity list is always sorted non-strictly
descending by confidence; and provided the MarineTraffic API key is
configured (truthy), every found vessel with a truthy `imo_number` yields a
MarineTraffic opportunity with identifier type `"imo"` and confidence 0.95.
Without an API key the MarineTraffic opportunities are skipped entirely. -/
theorem enhancement_opportunities_sorted_and_imo (vessel? : Option Vessel)
    (api_key : Value) :
    (get_enhancement_opportunities vessel? api_key).Pairwise
      (fun a b => b.confidence.ble a.confidence = true) ∧
    (∀ v : Vessel, vessel? = some v → pyTruthy api_key = true →
      pyTruthy ((dget v.attrs "imo_number").getD .vnone) = true →
      ∃ o ∈ get_enhancement_opportunities vessel? api_key,
        o.source = .marinetraffic ∧ o.identifier_type = "imo" ∧
        o.confidence = ⟨19, 20⟩) := by
  constructor
  · cases vessel? with
    | none => simp [get_enhancement_opportunities]
    | some v =>
        rw [get_opps_some_eq]
        cases hboat : _get_boat_international_opportunities v with
        | error e =>
            by_cases hk : pyTruthy api_key = true
            · rw [if_pos hk]
              exact marinetraffic_opps_sorted v
            · rw [if_neg hk]
              exact List.Pairwise.nil
        | ok boat =>
            apply sortOpps_sorted
            intro o ho
            rcases List.mem_append.1 ho with h | h
            · by_cases hk : pyTruthy api_key = true
              · rw [if_pos hk] at h
                exact marinetraffic_opps_posden v o h
              · rw [if_neg hk] at h
                simp at h
            · exact boat_opps_posden v boat hboat o h
  · intro v hv hkey himo
    subst hv
    have hmem : (⟨.marinetraffic, "imo",
        (dget v.attrs "imo_number").getD .vnone, ⟨19, 20⟩,
        "Enhance using IMO number "
          ++ pyStrOfValue ((dget v.attrs "imo_number").getD .vnone), 8⟩ :
        EnhancementOpportunity) ∈ _get_marinetraffic_opportunities v := by
      unfold _get_marinetraffic_opportunities
      rw [if_pos himo]
      exact List.mem_append.2 (Or.inl (by simp))
    rw [get_opps_some_eq]
    cases hboat : _get_boat_international_opportunities v with
    | error e =>
        refine ⟨⟨.marinetraffic, "imo",
          (dget v.attrs "imo_number").getD .vnone, ⟨19, 20⟩,
          "Enhance using IMO number "
            ++ pyStrOfValue ((dget v.attrs "imo_number").getD .vnone), 8⟩,
          ?_, rfl, rfl, rfl⟩
        rw [if_pos hkey]
        exact hmem
    | ok boat =>
        refine ⟨⟨.marinetraffic, "imo",
          (dget v.attrs "imo_number").getD .vnone, ⟨19, 20⟩,
          "Enhance using IMO number "
            ++ pyStrOfValue ((dget v.attrs "imo_number").getD .vnone), 8⟩,
          ?_, rfl, rfl, rfl⟩
        apply (mem_sortOpps _ _).2
        apply List.mem_append.2
        left
        rw [if_pos hkey]
        exact hmem

/-- Witness for C8 (amended): a vessel with IMO `"9074729"` and a
configured API key yields the 0.95 `"imo"` MarineTraffic opportunity in a
sorted list. -/
theorem enhancement_opportunities_sorted_and_imo_witness :
    (get_enhancement_opportunities
      (some (mkBaseVessel [("imo_number", .vstr "9074729")]))
      (.vstr "key")).Pairwise
      (fun a b => b.confidence.ble a.confidence = true) ∧
    (∃ o ∈ get_enhancement_opportunities
        (some (mkBaseVessel [("imo_number", .vstr "9074729")])) (.vstr "key"),
      o.source = .marinetraffic ∧ o.identifier_type = "imo" ∧
      o.confidence = ⟨19, 20⟩) := by
  obtain ⟨h1, h2⟩ := enhancement_opportunities_sorted_and_imo
    (some (mkBaseVessel [("imo_number", .vstr "9074729")])) (.vstr "key")
  exact ⟨h1, h2 (mkBaseVessel [("imo_number", .vstr "9074729")]) rfl rfl rfl⟩

/-! ## Congruence of the merge in the existing-data dict -/

theorem processField_congr (ed1 ed2 : Dict) (es ns : String) (ar : Bool)
    (h : ∀ k, dget ed1 k = dget ed2 k) (acc : MergeAcc) (kv : String × Value) :
    processField ed1 es ns ar acc kv = processField ed2 es ns ar acc kv := by
  unfold processField
  simp only [h]

theorem processField_fold_congr (ed1 ed2 : Dict) (es ns : String) (ar : Bool)
    (h : ∀ k, dget ed1 k = dget ed2 k) (l : List (String × Value)) (acc : MergeAcc) :
    List.foldlM (processField ed1 es ns ar) acc l
      = List.foldlM (processField ed2 es ns ar) acc l := by
  induction l generalizing acc with
  | nil => rfl
  | cons x xs ih =>
      rw [foldlM_except_cons, foldlM_except_cons,
        processField_congr ed1 ed2 es ns ar h acc x]
      cases hx : processField ed2 es ns ar acc x with
      | error e => simp only [except_bind_error]
      | ok a =>
          simp only [except_bind_ok]
          exact ih a

theorem validate_congr (m1 m2 : Dict) (h : ∀ k, dget m1 k = dget m2 k) :
    _validate_merged_data m1 = _validate_merged_data m2 := by
  unfold _validate_merged_data validateBeamBlock validateSpeedBlock
    validateImoBlock dmem
  rw [h "length_overall", h "beam", h "max_speed", h "imo_number"]

theorem vessel_to_dict_nodup (v : Vessel) :
    (dkeys (_vessel_to_dict v)).Nodup := by
  have h : ∀ (l : List (String × Value)) (d : Dict), (dkeys d).Nodup →
      (dkeys (List.foldl (fun d kv =>
        if startsWithUnderscore kv.1 then d
        else match kv.2 with
          | .vnone => d
          | .venum tag => dset d kv.1 (.vstr tag)
          | v => dset d kv.1 v) d l)).Nodup := by
    intro l
    induction l with
    | nil => intro d hd; exact hd
    | cons x xs ih =>
        intro d hd
        simp only [List.foldl_cons]
        apply ih
        by_cases hu : startsWithUnderscore x.1 = true
        · rw [if_pos hu]; exact hd
        · rw [if_neg hu]
          cases x.2 <;> first
            | exact hd
            | exact nodup_dkeys_dset _ _ _ hd
  exact h (sortAttrs v.attrs) [] (by simp [dkeys])

theorem copyRemaining_congr (m ed1 ed2 : Dict)
    (hnd1 : (dkeys ed1).Nodup) (hnd2 : (dkeys ed2).Nodup)
    (h : ∀ k, dget ed1 k = dget ed2 k) (k : String) :
    dget (copyRemainingExisting m ed1) k
      = dget (copyRemainingExisting m ed2) k := by
  rw [copyRemaining_dget m ed1 k hnd1, copyRemaining_dget m ed2 k hnd2, h k]

theorem merge_vessel_data_congr (v1 v2 : Vessel) (nd : Dict) (ns es : String)
    (ar : Bool)
    (h : ∀ k, dget (_vessel_to_dict v1) k = dget (_vessel_to_dict v2) k) :
    (merge_vessel_data v1 nd ns es ar).success
      = (merge_vessel_data v2 nd ns es ar).success ∧
    (∀ k, dget (merge_vessel_data v1 nd ns es ar).merged_data k
      = dget (merge_vessel_data v2 nd ns es ar).merged_data k) ∧
    (merge_vessel_data v1 nd ns es ar).conflicts
      = (merge_vessel_data v2 nd ns es ar).conflicts ∧
    (merge_vessel_data v1 nd ns es ar).auto_resolved
      = (merge_vessel_data v2 nd ns es ar).auto_resolved ∧
    (merge_vessel_data v1 nd ns es ar).manual_required
      = (merge_vessel_data v2 nd ns es ar).manual_required ∧
    (merge_vessel_data v1 nd ns es ar).warnings
      = (merge_vessel_data v2 nd ns es ar).warnings ∧
    (merge_vessel_data v1 nd ns es ar).error_message
      = (merge_vessel_data v2 nd ns es ar).error_message := by
  unfold merge_vessel_data
  rw [merge_core_eq, merge_core_eq,
    processField_fold_congr (_vessel_to_dict v1) (_vessel_to_dict v2) es ns ar h]
  cases hacc : List.foldlM (processField (_vessel_to_dict v2) es ns ar)
      initMergeAcc nd with
  | error e =>
      rw [except_bind_error, except_bind_error]
      exact ⟨rfl, fun k => rfl, rfl, rfl, rfl, rfl, rfl⟩
  | ok acc =>
      rw [except_bind_ok, except_bind_ok]
      have hcopy := copyRemaining_congr acc.merged_data
        (_vessel_to_dict v1) (_vessel_to_dict v2)
        (vessel_to_dict_nodup v1) (vessel_to_dict_nodup v2) h
      rw [validate_congr _ _ hcopy]
      cases hval : _validate_merged_data
          (copyRemainingExisting acc.merged_data (_vessel_to_dict v2)) with
      | error e =>
          rw [except_bind_error, except_bind_error]
          exact ⟨rfl, fun k => rfl, rfl, rfl, rfl, rfl, rfl⟩
      | ok ws =>
          rw [except_bind_ok, except_bind_ok]
          exact ⟨rfl, hcopy, rfl, rfl, rfl, rfl, rfl⟩

/-! ## Claim theorems: single-source merge_multiple_sources vs merge_vessel_data -/

/-- Counterexample to C3: for a `BaseVessel` with no `vessel_type`,
`merge_multiple_sources` reconstructs the record as a `YachtSchema`
(`data.get('vessel_type', 'yacht')` defaults to `'yacht'`), so yacht-only
default fields such as `superyacht_status = False` leak into its merged
map; the direct `merge_vessel_data` call has no such field — the two
results are not identical even though both succeed. -/
theorem merge_single_source_not_identical_counterexample :
    dmem (merge_multiple_sources (mkBaseVessel [("vessel_name", .vstr "Test")])
      [([("builder", .vstr "X")], "marinetraffic")] true).merged_data
      "superyacht_status" = true ∧
    dmem (merge_vessel_data (mkBaseVessel [("vessel_name", .vstr "Test")])
      [("builder", .vstr "X")] "marinetraffic" "database" true).merged_data
      "superyacht_status" = false ∧
    (merge_multiple_sources (mkBaseVessel [("vessel_name", .vstr "Test")])
      [([("builder", .vstr "X")], "marinetraffic")] true).success = true ∧
    (merge_vessel_data (mkBaseVessel [("vessel_name", .vstr "Test")])
      [("builder", .vstr "X")] "marinetraffic" "database" true).success = true := by
  refine ⟨?_, rfl, ?_, rfl⟩
  · set_option maxRecDepth 400000 in rfl
  · set_option maxRecDepth 400000 in rfl

/-- C3 (amended): `merge_multiple_sources` with a single-element source
list produces the same success flag, conflicts, auto_resolved,
manual_required, warnings and error message as a direct `merge_vessel_data`
call, and a merged field map equal as a key-value map, provided the
existing vessel's field dict survives the round trip through
`_create_vessel_from_dict` (as it does for vessels whose `vessel_type`
keeps the reconstructed class's field set, e.g. a `BaseVessel` with a
non-yacht `vessel_type`); without that proviso the reconstructed temporary
vessel's default fields leak into the merged map (see the
counterexample). -/
theorem merge_single_source_equiv (v : Vessel) (nd : Dict) (src : String)
    (ar : Bool)
    (hround : ∀ k,
      dget (_vessel_to_dict (_create_vessel_from_dict (_vessel_to_dict v))) k
        = dget (_vessel_to_dict v) k) :
    (merge_multiple_sources v [(nd, src)] ar).success
      = (merge_vessel_data v nd src "database" ar).success ∧
    (∀ k, dget (merge_multiple_sources v [(nd, src)] ar).merged_data k
      = dget (merge_vessel_data v nd src "database" ar).merged_data k) ∧
    (merge_multiple_sources v [(nd, src)] ar).conflicts
      = (merge_vessel_data v nd src "database" ar).conflicts ∧
    (merge_multiple_sources v [(nd, src)] ar).auto_resolved
      = (merge_vessel_data v nd src "database" ar).auto_resolved ∧
    (merge_multiple_sources v [(nd, src)] ar).manual_required
      = (merge_vessel_data v nd src "database" ar).manual_required ∧
    (merge_multiple_sources v [(nd, src)] ar).warnings
      = (merge_vessel_data v nd src "database" ar).warnings ∧
    (merge_multiple_sources v [(nd, src)] ar).error_message
      = (merge_vessel_data v nd src "database" ar).error_message := by
  obtain ⟨hsucc, hmerged, hconf, hauto, hman, hwarn, herr⟩ :=
    merge_vessel_data_congr (_create_vessel_from_dict (_vessel_to_dict v)) v
      nd src "database" ar hround
  simp only [merge_multiple_sources, mergeSourcesLoop]
  by_cases hs : (merge_vessel_data (_create_vessel_from_dict (_vessel_to_dict v))
      nd src "database" ar).success = false
  · rw [if_pos hs]
    have hs2 : (merge_vessel_data v nd src "database" ar).success = false := by
      rw [← hsucc]; exact hs
    obtain ⟨e1, he1⟩ := merge_vessel_data_failure_shape _ _ _ _ _ hs
    obtain ⟨e2, he2⟩ := merge_vessel_data_failure_shape _ _ _ _ _ hs2
    have herr' : e1 = e2 := by
      have := herr
      rw [he1, he2] at this
      exact Option.some.inj this
    rw [he1, he2, herr']
    exact ⟨rfl, fun k => rfl, rfl, rfl, rfl, rfl, rfl⟩
  · rw [if_neg hs]
    have hrt : (merge_vessel_data (_create_vessel_from_dict (_vessel_to_dict v))
        nd src "database" ar).success = true := by
      revert hs
      cases (merge_vessel_data (_create_vessel_from_dict (_vessel_to_dict v))
        nd src "database" ar).success <;> simp
    obtain ⟨acc, ws, _, _, heqr⟩ := merge_vessel_data_success_shape _ _ _ _ _ hrt
    refine ⟨?_, hmerged, by simpa using hconf, by simpa using hauto,
      by simpa using hman, by simpa using hwarn, ?_⟩
    · rw [← hsucc, hrt]
    · rw [← herr, heqr]

/-- Witness for C3 (amended): a `BaseVessel` with `vessel_type =
"cargo_ship"` round-trips through `_create_vessel_from_dict`, so the
single-source multi-merge agrees with the direct merge. -/
theorem merge_single_source_equiv_witness :
    (merge_multiple_sources (mkBaseVessel [("vessel_name", .vstr "Cargo"),
        ("vessel_type", .venum "cargo_ship"), ("beam", .vnum 10),
        ("length_overall", .vnum 80)])
      [([("builder", .vstr "X"), ("beam", .vnum 12)], "imo_registry")]
      true).success
      = (merge_vessel_data (mkBaseVessel [("vessel_name", .vstr "Cargo"),
          ("vessel_type", .venum "cargo_ship"), ("beam", .vnum 10),
          ("length_overall", .vnum 80)])
        [("builder", .vstr "X"), ("beam", .vnum 12)] "imo_registry"
        "database" true).success ∧
    dget (merge_multiple_sources (mkBaseVessel [("vessel_name", .vstr "Cargo"),
        ("vessel_type", .venum "cargo_ship"), ("beam", .vnum 10),
        ("length_overall", .vnum 80)])
      [([("builder", .vstr "X"), ("beam", .vnum 12)], "imo_registry")]
      true).merged_data "beam"
      = dget (merge_vessel_data (mkBaseVessel [("vessel_name", .vstr "Cargo"),
          ("vessel_type", .venum "cargo_ship"), ("beam", .vnum 10),
          ("length_overall", .vnum 80)])
        [("builder", .vstr "X"), ("beam", .vnum 12)] "imo_registry"
        "database" true).merged_data "beam" ∧
    (merge_multiple_sources (mkBaseVessel [("vessel_name", .vstr "Cargo"),
        ("vessel_type", .venum "cargo_ship"), ("beam", .vnum 10),
        ("length_overall", .vnum 80)])
      [([("builder", .vstr "X"), ("beam", .vnum 12)], "imo_registry")]
      true).conflicts
      = (merge_vessel_data (mkBaseVessel [("vessel_name", .vstr "Cargo"),
          ("vessel_type", .venum "cargo_ship"), ("beam", .vnum 10),
          ("length_overall", .vnum 80)])
        [("builder", .vstr "X"), ("beam", .vnum 12)] "imo_registry"
        "database" true).conflicts ∧
    (merge_multiple_sources (mkBaseVessel [("vessel_name", .vstr "Cargo"),
        ("vessel_type", .venum "cargo_ship"), ("beam", .vnum 10),
        ("length_overall", .vnum 80)])
      [([("builder", .vstr "X"), ("beam", .vnum 12)], "imo_registry")]
      true).warnings
      = (merge_vessel_data (mkBaseVessel [("vessel_name", .vstr "Cargo"),
          ("vessel_type", .venum "cargo_ship"), ("beam", .vnum 10),
          ("length_overall", .vnum 80)])
        [("builder", .vstr "X"), ("beam", .vnum 12)] "imo_registry"
        "database" true).warnings := by
  obtain ⟨h1, h2, h3, h4, h5, h6, h7⟩ := merge_single_source_equiv
    (mkBaseVessel [("vessel_name", .vstr "Cargo"),
      ("vessel_type", .venum "cargo_ship"), ("beam", .vnum 10),
      ("length_overall", .vnum 80)])
    [("builder", .vstr "X"), ("beam", .vnum 12)] "imo_registry" true
    (fun k => by
      rw [show _vessel_to_dict (_create_vessel_from_dict
          (_vessel_to_dict (mkBaseVessel [("vessel_name", .vstr "Cargo"),
            ("vessel_type", .venum "cargo_ship"), ("beam", .vnum 10),
            ("length_overall", .vnum 80)])))
          = _vessel_to_dict (mkBaseVessel [("vessel_name", .vstr "Cargo"),
            ("vessel_type", .venum "cargo_ship"), ("beam", .vnum 10),
            ("length_overall", .vnum 80)]) from
        by set_option maxRecDepth 400000 in rfl])
  exact ⟨h1, h2 "beam", h3, h6⟩
